import Mathlib

set_option autoImplicit false

/-
Verification of the Walbucket SDK orchestration layer.

The definitions below are a shallow embedding of the TypeScript sources:
src/utils/file.ts, src/utils/config.ts, src/strategies/gasStrategy.ts,
src/services/apiKeyService.ts, src/services/walrusService.ts,
src/services/suiService.ts and src/core/walbucket.ts.  External
collaborators (ledger, blob store, encryption service) are modelled as
explicit state, following the interface the spec fixes for them.  JavaScript
truthiness on strings and numbers is made explicit by helper functions.
-/

namespace Walbucket

/-- Association-list lookup returning the first value bound to the key
(later entries are shadowed by earlier ones, so prepending overwrites). -/
def lookupAssoc {α : Type} : List (String × α) → String → Option α
  | [], _ => none
  | (k2, v) :: rest, k => if k2 = k then some v else lookupAssoc rest k

/-- Remove every binding of a key from an association list. -/
def removeAssoc {α : Type} (l : List (String × α)) (k : String) : List (String × α) :=
  l.filter (fun p => p.1 != k)

/-- Whitespace trimming as performed by String.prototype.trim, embedded as a
structural recursion over the character list. -/
def strTrim (s : String) : String :=
  String.mk (((s.data.dropWhile Char.isWhitespace).reverse.dropWhile Char.isWhitespace).reverse)

/-- JavaScript truthiness for an optional string: the empty string is falsy. -/
def optTruthyStr (s : Option String) : Option String :=
  match s with
  | some v => if v = "" then none else some v
  | none => none

/-- JavaScript truthiness for an optional number: zero is falsy. -/
def optTruthyNat (n : Option Nat) : Option Nat :=
  match n with
  | some v => if v = 0 then none else some v
  | none => none

/-- UTF-8 encoding of one character. -/
def utf8Bytes (c : Char) : List Nat :=
  let n := c.toNat
  if n < 128 then [n]
  else if n < 2048 then [192 + n / 64, 128 + n % 64]
  else if n < 65536 then [224 + n / 4096, 128 + (n / 64) % 64, 128 + n % 64]
  else [240 + n / 262144, 128 + (n / 4096) % 64, 128 + (n / 64) % 64, 128 + n % 64]

/-- UTF-8 bytes of a string, as produced by Buffer.from in the source. -/
def strBytes (s : String) : List Nat :=
  s.data.flatMap utf8Bytes

/-- Value of one hexadecimal digit, 0 for any other character. -/
def hexDigitVal (c : Char) : Nat :=
  if c = '0' then 0 else if c = '1' then 1 else if c = '2' then 2
  else if c = '3' then 3 else if c = '4' then 4 else if c = '5' then 5
  else if c = '6' then 6 else if c = '7' then 7 else if c = '8' then 8
  else if c = '9' then 9 else if c = 'a' then 10 else if c = 'b' then 11
  else if c = 'c' then 12 else if c = 'd' then 13 else if c = 'e' then 14
  else if c = 'f' then 15 else 0

/-- Decode pairs of hex characters into bytes. -/
def hexBytesAux : List Char → List Nat
  | c1 :: c2 :: rest => (16 * hexDigitVal c1 + hexDigitVal c2) :: hexBytesAux rest
  | _ => []

/-- Remove a leading 0x marker from a character list. -/
def hexStrip (cs : List Char) : List Char :=
  match cs with
  | '0' :: 'x' :: rest => rest
  | _ => cs

/-- Bytes of a hex string with an optional 0x marker removed, as produced by
Buffer.from(s.replace("0x", ""), "hex") in the source. -/
def hexBytes (s : String) : List Nat :=
  hexBytesAux (hexStrip s.data)

/-- Splitting of a character list at separator characters, keeping empty
segments, as performed by String.prototype.split. -/
def splitCharsAux (p : Char → Bool) : List Char → List Char → List (List Char)
  | [], acc => [acc.reverse]
  | c :: rest, acc =>
    if p c then acc.reverse :: splitCharsAux p rest []
    else splitCharsAux p rest (c :: acc)

/-- Split a string at separator characters. -/
def splitStr (p : Char → Bool) (s : String) : List String :=
  (splitCharsAux p s.data []).map String.mk

/-- Lower-casing of a string, character by character. -/
def strToLower (s : String) : String :=
  String.mk (s.data.map Char.toLower)

/-- Embedding of src/types/errors.ts: the five error kinds of the SDK. -/
inductive WbError where
  | validation (msg : String)
  | network (msg : String) (status : Option Nat)
  | encryptionErr (msg : String)
  | blockchain (msg : String)
  | configuration (msg : String)
deriving Repr, DecidableEq

/-! ## File utilities (src/utils/file.ts) -/

/-- Embedding of the FileInput union (src/types/requests.ts): raw bytes
(Buffer or Uint8Array), a file-system path whose contents are supplied by the
environment, or a browser File object carrying a name and a MIME type. -/
inductive FileInput where
  | buffer (data : List Nat)
  | path (p : String) (data : List Nat)
  | fileObj (fname : String) (ftype : String) (data : List Nat)
deriving Repr, DecidableEq

/-- Embedding of fileToBuffer (src/utils/file.ts): every supported input is
converted to its bytes (for a path the file system supplies them). -/
def fileToBuffer (file : FileInput) : List Nat :=
  match file with
  | .buffer data => data
  | .path _ data => data
  | .fileObj _ _ data => data

/-- Embedding of getFileName (src/utils/file.ts): File objects report their
name, paths are split on slashes and backslashes, anything else is untitled. -/
def getFileName (file : FileInput) : String :=
  match file with
  | .fileObj fname _ _ => fname
  | .path p _ =>
    let parts := splitStr (fun c => c == '/' || c == '\\') p
    let filename := (parts.getLast?).getD ""
    if filename = "" then "untitled" else filename
  | .buffer _ => "untitled"

/-- Extension-to-MIME table of getContentType (src/utils/file.ts). -/
def mimeTypes (ext : String) : Option String :=
  if ext = "jpg" then some "image/jpeg"
  else if ext = "jpeg" then some "image/jpeg"
  else if ext = "png" then some "image/png"
  else if ext = "gif" then some "image/gif"
  else if ext = "webp" then some "image/webp"
  else if ext = "mp4" then some "video/mp4"
  else if ext = "pdf" then some "application/pdf"
  else none

/-- Embedding of getContentType (src/utils/file.ts): Blob and File inputs
report their own type when truthy; for a path the lower-cased extension is
looked up in the table; everything else falls back to the octet-stream type. -/
def getContentType (file : FileInput) : String :=
  match file with
  | .fileObj _ ftype _ =>
    if ftype = "" then "application/octet-stream" else ftype
  | .path p _ =>
    let ext := ((splitStr (fun c => c == '.') p).getLast?).getD ""
    (mimeTypes (strToLower ext)).getD "application/octet-stream"
  | .buffer _ => "application/octet-stream"

/-! ## Configuration (src/types/config.ts, src/utils/config.ts) -/

/-- Embedding of the SuiNetwork union. -/
inductive SuiNetwork where
  | testnet
  | mainnet
  | devnet
  | localnet
deriving Repr, DecidableEq

/-- Embedding of the GasStrategy union. -/
inductive GasStrategy where
  | developerSponsored
  | userPays
deriving Repr, DecidableEq

/-- Embedding of WalbucketConfig (src/types/config.ts).  The user-pays
submission function is represented by its presence, since only its presence
is inspected by configuration validation. -/
structure WalbucketConfig where
  apiKey : String
  network : Option SuiNetwork
  encryption : Option Bool
  gasStrategy : Option GasStrategy
  sponsorPrivateKey : Option String
  hasSignAndExecuteTransaction : Bool
  userAddress : Option String
  packageId : Option String
  walrusPublisherUrl : Option String
  walrusAggregatorUrl : Option String
  cacheTTL : Option Nat
deriving Repr, DecidableEq

/-- Embedding of DEFAULT_PACKAGE_IDS (src/types/config.ts): only testnet has
a deployed package, the other networks map to the empty string. -/
def DEFAULT_PACKAGE_IDS (n : SuiNetwork) : String :=
  match n with
  | .testnet => "0x481a774f5cf0a3437a6f9623604874681943950bb82c146051afdec74f0c9b26"
  | .mainnet => ""
  | .devnet => ""
  | .localnet => ""

/-- Embedding of the aggregator half of DEFAULT_WALRUS_URLS (src/types/config.ts). -/
def DEFAULT_WALRUS_AGGREGATOR (n : SuiNetwork) : String :=
  match n with
  | .testnet => "https://aggregator.walrus-testnet.walrus.space"
  | .mainnet => "https://aggregator.mainnet.walrus.space"
  | .devnet => "https://aggregator.walrus-testnet.walrus.space"
  | .localnet => "http://localhost:8081"

/-- Embedding of the publisher half of DEFAULT_WALRUS_URLS (src/types/config.ts). -/
def DEFAULT_WALRUS_PUBLISHER (n : SuiNetwork) : String :=
  match n with
  | .testnet => "https://publisher.walrus-01.tududes.com"
  | .mainnet => "https://publisher.mainnet.walrus.space"
  | .devnet => "https://publisher.walrus-01.tududes.com"
  | .localnet => "http://localhost:8080"

/-- Normalized configuration as returned by validateConfig. -/
structure NormalizedConfig where
  apiKey : String
  network : SuiNetwork
  encryption : Bool
  gasStrategy : GasStrategy
  sponsorPrivateKey : Option String
  hasSignAndExecuteTransaction : Bool
  userAddress : Option String
  packageId : String
  walrusPublisherUrl : String
  walrusAggregatorUrl : String
  cacheTTL : Nat
deriving Repr, DecidableEq

/-- Embedding of validateConfig (src/utils/config.ts).  An absent api key
fails; a sponsored strategy without a sponsor private key fails; a user-pays
strategy without the submission function fails; the package id defaults by
network and must be non-blank; the cache TTL and URLs receive defaults.
JavaScript truthiness is modelled: empty strings and zero behave as absent. -/
def validateConfig (config : WalbucketConfig) : Except WbError NormalizedConfig :=
  if config.apiKey = "" then
    .error (.configuration "API key is required")
  else
    let network := config.network.getD .testnet
    let gasStrategy := config.gasStrategy.getD .developerSponsored
    if gasStrategy = .developerSponsored ∧ optTruthyStr config.sponsorPrivateKey = none then
      .error (.configuration "sponsorPrivateKey is required when gasStrategy is developer-sponsored")
    else if gasStrategy = .userPays ∧ ¬ config.hasSignAndExecuteTransaction then
      .error (.configuration "signAndExecuteTransaction function is required when gasStrategy is user-pays")
    else
      let packageId := (optTruthyStr config.packageId).getD (DEFAULT_PACKAGE_IDS network)
      if strTrim packageId = "" then
        .error (.configuration "Package ID not available for network")
      else
        .ok {
          apiKey := config.apiKey
          network := network
          encryption := config.encryption.getD true
          gasStrategy := gasStrategy
          sponsorPrivateKey := config.sponsorPrivateKey
          hasSignAndExecuteTransaction := config.hasSignAndExecuteTransaction
          userAddress := config.userAddress
          packageId := packageId
          walrusPublisherUrl := (optTruthyStr config.walrusPublisherUrl).getD (DEFAULT_WALRUS_PUBLISHER network)
          walrusAggregatorUrl := (optTruthyStr config.walrusAggregatorUrl).getD (DEFAULT_WALRUS_AGGREGATOR network)
          cacheTTL := match optTruthyNat config.cacheTTL with
            | some n => n
            | none => 3600
        }

/-! ## Gas strategy (src/strategies/gasStrategy.ts) -/

/-- Held signer as produced by Ed25519Keypair.fromSecretKey on the sponsor
private key; the key material identifies the keypair. -/
inductive SignerModel where
  | keypairFromSecret (privateKeyHex : String)
deriving Repr, DecidableEq

/-- Embedding of GasStrategyService.getSigner (src/strategies/gasStrategy.ts):
developer-sponsored requires the sponsor private key and yields a held
keypair; user-pays yields null because the wallet signs externally.  The
unknown-strategy branch of the source is unrepresentable in the typed
embedding since GasStrategy has exactly the two variants. -/
def getSigner (strategy : GasStrategy) (sponsorPrivateKey : Option String) :
    Except WbError (Option SignerModel) :=
  match strategy with
  | .developerSponsored =>
    match optTruthyStr sponsorPrivateKey with
    | none => .error (.configuration "sponsorPrivateKey is required for developer-sponsored gas strategy")
    | some k => .ok (some (.keypairFromSecret k))
  | .userPays => .ok none

/-! ## Transaction building (src/services/suiService.ts) -/

/-- Arguments of a Move call as built through the Transaction API. -/
inductive TxArg where
  | objArg (id : String)
  | pureU8 (n : Nat)
  | pureU64 (n : Nat)
  | pureU8Vec (v : List Nat)
  | pureVecVec (v : List (List Nat))
  | pureOptU64 (n : Option Nat)
  | pureOptU8Vec (v : Option (List Nat))
  | pureOptAddress (a : Option String)
  | pureAddressVec (v : List String)
deriving Repr, DecidableEq

/-- One moveCall of a transaction. -/
structure MoveCallSpec where
  target : String
  args : List TxArg
deriving Repr, DecidableEq

/-- Embedding of a built Sui transaction: an optional explicit sender (the
source never calls setSender, so every transaction built here leaves it
absent) and the list of Move calls. -/
structure SuiTx where
  sender : Option String
  calls : List MoveCallSpec
deriving Repr, DecidableEq

/-- Object ids referenced by a transaction through tx.object arguments. -/
def objectArgs (tx : SuiTx) : List String :=
  tx.calls.flatMap (fun c => c.args.filterMap (fun a =>
    match a with
    | .objArg id => some id
    | _ => none))

/-- Whether a transaction references a given object id. -/
def referencesObject (tx : SuiTx) (id : String) : Bool :=
  (objectArgs tx).contains id

/-- Modelled from the spec (sections 3 and 6): the ledger attributes the owner
of a created object from the actual transaction signer; a transaction that
carried an explicit sender would be attributed to that sender instead.  The
contract itself is not part of this repository. -/
def ledgerRecordedOwner (tx : SuiTx) (actualSigner : String) : String :=
  match tx.sender with
  | some s => s
  | none => actualSigner

/-- Parameters of SuiService.createAsset (src/services/suiService.ts). -/
structure CreateAssetParams where
  blobId : String
  name : String
  contentType : String
  size : Nat
  tags : List String
  description : String
  category : String
  width : Option Nat
  height : Option Nat
  thumbnailBlobId : Option String
  folderId : Option String
  apiKeyId : String
  apiKeyHash : String
  developerAccountId : String
deriving Repr, DecidableEq

/-- Transaction built by SuiService.createAsset (src/services/suiService.ts):
a single moveCall to asset::upload_asset_with_api_key whose arguments include
the api key object, the hashed key, the developer account object and the
clock.  No sender is set and no owner is passed as data. -/
def createAssetTx (packageId : String) (p : CreateAssetParams) : SuiTx :=
  { sender := none
    calls := [
      { target := packageId ++ "::asset::upload_asset_with_api_key"
        args := [
          .pureU8Vec (strBytes p.blobId),
          .pureU8Vec (strBytes p.name),
          .pureU8Vec (strBytes p.contentType),
          .pureU64 p.size,
          .pureVecVec (p.tags.map strBytes),
          .pureU8Vec (strBytes p.description),
          .pureU8Vec (strBytes p.category),
          .pureOptU64 (optTruthyNat p.width),
          .pureOptU64 (optTruthyNat p.height),
          .pureOptU8Vec ((optTruthyStr p.thumbnailBlobId).map strBytes),
          .pureOptAddress (optTruthyStr p.folderId),
          .objArg p.apiKeyId,
          .pureU8Vec (hexBytes p.apiKeyHash),
          .objArg p.developerAccountId,
          .objArg "0x6"
        ] }
    ] }

/-- Parameters of SuiService.uploadAssetUserPays (src/services/suiService.ts):
no api key objects are involved. -/
structure UserPaysUploadParams where
  blobId : String
  name : String
  contentType : String
  size : Nat
  tags : List String
  description : String
  category : String
  width : Option Nat
  height : Option Nat
  thumbnailBlobId : Option String
  folderId : Option String
deriving Repr, DecidableEq

/-- Transaction built by SuiService.uploadAssetUserPays: a single moveCall to
asset::upload_asset, the credential-free entry point.  The only object
argument is the shared clock; no sender is set. -/
def uploadAssetUserPaysTx (packageId : String) (p : UserPaysUploadParams) : SuiTx :=
  { sender := none
    calls := [
      { target := packageId ++ "::asset::upload_asset"
        args := [
          .pureU8Vec (strBytes p.blobId),
          .pureU8Vec (strBytes p.name),
          .pureU8Vec (strBytes p.contentType),
          .pureU64 p.size,
          .pureVecVec (p.tags.map strBytes),
          .pureU8Vec (strBytes p.description),
          .pureU8Vec (strBytes p.category),
          .pureOptU64 (optTruthyNat p.width),
          .pureOptU64 (optTruthyNat p.height),
          .pureOptU8Vec ((optTruthyStr p.thumbnailBlobId).map strBytes),
          .pureOptAddress (optTruthyStr p.folderId),
          .objArg "0x6"
        ] }
    ] }

/-! ## Transaction result reconciliation (SuiService.createAsset, user-pays
submission branch) -/

/-- Entry of the effects created list: reference and its object id; both can
be absent in a partial response. -/
structure CreatedRef where
  objectId : Option String
deriving Repr, DecidableEq

/-- Effects of a transaction response; created and transactionDigest may be
absent. -/
structure TxEffectsR where
  created : Option (List CreatedRef)
  transactionDigest : Option String
deriving Repr, DecidableEq

/-- One entry of the objectChanges list. -/
structure ObjChange where
  type : String
  objectId : String
  objectType : String
deriving Repr, DecidableEq

/-- Heterogeneous transaction response: any of the three components may be
missing depending on which external shape was returned. -/
structure TxResultR where
  digest : Option String
  effects : Option TxEffectsR
  objectChanges : Option (List ObjChange)
deriving Repr, DecidableEq

/-- First half of the extraction in SuiService.createAsset: the object id of
the first entry of the effects created list, when present and truthy. -/
def idFromEffects (result : TxResultR) : Option String :=
  match result.effects with
  | some eff =>
    match eff.created with
    | some created =>
      match created with
      | [] => none
      | c :: _ =>
        match c.objectId with
        | some aid => if aid = "" then none else some aid
        | none => none
    | none => none
  | none => none

/-- Second half of the extraction in SuiService.createAsset: the object id of
the first objectChanges entry whose type is created, when truthy. -/
def idFromObjectChanges (result : TxResultR) : Option String :=
  match result.objectChanges with
  | some changes =>
    match changes.filter (fun ch => ch.type == "created") with
    | [] => none
    | ch :: _ => if ch.objectId = "" then none else some ch.objectId
  | none => none

/-- Created-object extraction of SuiService.createAsset: the effects created
list is consulted first, then the objectChanges list filtered to created
entries. -/
def extractAssetId (result : TxResultR) : Option String :=
  match idFromEffects result with
  | some aid => some aid
  | none => idFromObjectChanges result

/-- Options passed to waitForTransaction by the reconciler. -/
structure QueryOpts where
  showEffects : Bool
  showObjectChanges : Bool
  showEvents : Bool
deriving Repr, DecidableEq

deriving instance DecidableEq for Except

/-- Trace of one reconciliation: how long it waited before requerying, which
digest it requeried with which options, and the final outcome. -/
structure ReconcileTrace where
  waitedMs : Nat
  requery : Option (String × QueryOpts)
  outcome : Except WbError String
deriving Repr, DecidableEq

/-- Digest extraction of SuiService.createAsset: result.digest, falling back
to effects.transactionDigest, with JavaScript truthiness on both. -/
def digestOf (immediate : TxResultR) : Option String :=
  match optTruthyStr immediate.digest with
  | some d => some d
  | none => optTruthyStr (immediate.effects.bind (fun e => e.transactionDigest))

/-- Reconciler of SuiService.createAsset for externally submitted
transactions (user-pays branch): when the immediate response carries a
digest, wait 3000 ms, requery the transaction by digest with effects,
object changes and events requested, and extract the created id from the
requeried result; otherwise extract from the immediate result.  When no id
can be extracted the outcome is a BlockchainError naming the digest. -/
def createAssetReconcile (immediate : TxResultR) (indexed : String → TxResultR) :
    ReconcileTrace :=
  match digestOf immediate with
  | some d =>
    let txResult := indexed d
    { waitedMs := 3000
      requery := some (d, { showEffects := true, showObjectChanges := true, showEvents := true })
      outcome :=
        match extractAssetId txResult with
        | some aid => .ok aid
        | none => .error (.blockchain
            ("Failed to get asset ID from transaction. Digest: " ++ d)) }
  | none =>
    { waitedMs := 0
      requery := none
      outcome :=
        match extractAssetId immediate with
        | some aid => .ok aid
        | none => .error (.blockchain
            ("Failed to get asset ID from transaction. Digest: " ++ "unknown")) }

/-! ## API key service (src/services/apiKeyService.ts) -/

/-- Permission flags, matching the contract constants. -/
def PERMISSION_UPLOAD : Nat := 1

def PERMISSION_READ : Nat := 2

def PERMISSION_DELETE : Nat := 4

def PERMISSION_TRANSFORM : Nat := 8

def PERMISSION_ADMIN : Nat := 16

/-- Modelled from the spec: the node crypto library SHA-256 hex digest used
as the credential fingerprint.  Its internals are external library code; it
is modelled as an opaque injective fingerprint function, which is all the
orchestrator relies on (equality comparison of digests). -/
def sha256Hex (s : String) : String :=
  "sha256:" ++ s

/-- Fields of the on-ledger ApiKey object as read by the service (stored
hash already rendered as a hex string, timestamps in on-chain seconds). -/
structure ApiKeyFields where
  apiKeyHash : String
  isActive : Bool
  expiresAt : Nat
  permissions : Nat
  developerAddress : String
  name : String
  rateLimit : Nat
  createdAt : Nat
  usageCount : Nat
  lastUsedAt : Nat
deriving Repr, DecidableEq

/-- Embedding of ApiKeyData (src/types/responses.ts); timestamps converted
to milliseconds by the service. -/
structure ApiKeyData where
  keyId : String
  developerAddress : String
  name : String
  permissions : Nat
  rateLimit : Nat
  createdAt : Nat
  expiresAt : Nat
  isActive : Bool
  usageCount : Nat
  lastUsedAt : Nat
deriving Repr, DecidableEq

/-- Ledger state consulted by the api key service: the ApiKeyCreated event
log (most recent first), the key objects, and the DeveloperAccountCreated
event log as owner-to-account pairs (most recent first). -/
structure KeyLedger where
  apiKeyEvents : List String
  apiKeyObjects : List (String × ApiKeyFields)
  devAccountEvents : List (String × String)
deriving Repr, DecidableEq

/-- One fingerprint-cache entry of the api key service. -/
structure ApiKeyCacheEntry where
  data : ApiKeyData
  expiresAt : Nat
deriving Repr, DecidableEq

/-- Fingerprint cache of the api key service. -/
abbrev ApiKeyCache := List (String × ApiKeyCacheEntry)

/-- Embedding of ApiKeyService.findApiKeyObjectId: walk the ApiKeyCreated
events most recent first and return the first key object whose stored hash
matches the fingerprint and which is active; events whose object cannot be
fetched are skipped. -/
def findApiKeyObjectId (kl : KeyLedger) (apiKeyHash : String) : Option String :=
  kl.apiKeyEvents.find? (fun kid =>
    match lookupAssoc kl.apiKeyObjects kid with
    | some fields => fields.apiKeyHash == apiKeyHash && fields.isActive
    | none => false)

/-- Embedding of ApiKeyService.getDeveloperAccountId: walk the
DeveloperAccountCreated events and return the account id of the first event
whose owner matches the developer address. -/
def getDeveloperAccountId (kl : KeyLedger) (developerAddress : String) : Option String :=
  ((kl.devAccountEvents.find? (fun e => e.1 == developerAddress)).map (fun e => e.2))

/-- Embedding of ApiKeyService.validateApiKey.  A fresh fingerprint-cache
entry is returned as is, without consulting the ledger.  Otherwise the key
object is located by the event scan (or taken from the optional known id),
its stored hash is compared, expiry is checked before activity, and the
validated record is cached under the fingerprint for the cache TTL. -/
def validateApiKey (cache : ApiKeyCache) (cacheTTLms : Nat) (kl : KeyLedger)
    (now : Nat) (apiKey : String) (apiKeyId : Option String) :
    Except WbError (ApiKeyData × ApiKeyCache) :=
  let cacheKey := sha256Hex apiKey
  let cachedOk : Option ApiKeyData :=
    match lookupAssoc cache cacheKey with
    | some e => if e.expiresAt > now then some e.data else none
    | none => none
  match cachedOk with
  | some data => .ok (data, cache)
  | none =>
    let apiKeyHash := sha256Hex apiKey
    let keyId? :=
      match apiKeyId with
      | some k => some k
      | none => findApiKeyObjectId kl apiKeyHash
    match keyId? with
    | none => .error (.validation "API key not found")
    | some keyId =>
      match lookupAssoc kl.apiKeyObjects keyId with
      | none => .error (.validation "API key object not found")
      | some fields =>
        if fields.apiKeyHash ≠ apiKeyHash then
          .error (.validation "Invalid API key hash")
        else
          let expiresAt := fields.expiresAt * 1000
          if expiresAt > 0 ∧ now ≥ expiresAt then
            .error (.validation "API key has expired")
          else if ¬ fields.isActive then
            .error (.validation "API key is not active")
          else
            let data : ApiKeyData := {
              keyId := keyId
              developerAddress := fields.developerAddress
              name := fields.name
              permissions := fields.permissions
              rateLimit := fields.rateLimit
              createdAt := fields.createdAt * 1000
              expiresAt := expiresAt
              isActive := fields.isActive
              usageCount := fields.usageCount
              lastUsedAt := fields.lastUsedAt * 1000 }
            .ok (data, (cacheKey, { data := data, expiresAt := now + cacheTTLms }) ::
              removeAssoc cache cacheKey)

/-- Embedding of ApiKeyService.hasPermission: bitmask test against the
requested capability constant. -/
def hasPermission (apiKeyData : ApiKeyData) (permission : Nat) : Bool :=
  (apiKeyData.permissions &&& permission) ≠ 0

/-! ## Blob store (src/services/walrusService.ts) and external world -/

/-- Embedding of WalrusService.delete: a DELETE that fails with status 404
or 405 returns normally (immutable or already-absent blobs are not errors);
other HTTP failures surface as a NetworkError.  The outcome of the HTTP call
is supplied by the environment as an optional failure status. -/
def WalrusService.deleteBlob (status : Option Nat) : Except WbError Unit :=
  match status with
  | none => .ok ()
  | some s =>
    if s = 404 ∨ s = 405 then .ok ()
    else .error (.network ("Walrus delete failed: request failed with status code " ++ toString s) (some s))

/-- Encryption policy option (src/types/requests.ts). -/
structure EncryptionPolicy where
  type : String
  addresses : Option (List String)
  expiration : Option Nat
  password : Option String
deriving Repr, DecidableEq

/-- On-ledger encryption policy record created by
SuiService.createPolicy. -/
structure PolicyRec where
  policyId : String
  assetId : String
  policyType : Nat
deriving Repr, DecidableEq

/-- Embedding of AssetMetadata (src/types/responses.ts). -/
structure AssetMetadata where
  assetId : String
  owner : String
  blobId : String
  url : String
  name : String
  contentType : String
  size : Nat
  createdAt : Nat
  updatedAt : Nat
  policyId : Option String
  tags : List String
  description : String
  category : String
  width : Option Nat
  height : Option Nat
  thumbnailBlobId : Option String
  folderId : Option String
deriving Repr, DecidableEq

/-- State of the external collaborators: the blob store contents, the ledger
asset and policy records, the credential ledger, and the address of the
wallet behind the externally supplied submission function (the invoking
wallet of the self-pay path, modelled from the spec).  Fresh identifiers are
drawn from counters; collaborator responses are the only source of ids. -/
structure World where
  blobs : List (String × List Nat)
  assets : List (String × AssetMetadata)
  policies : List (String × PolicyRec)
  keys : KeyLedger
  walletAddress : String
  nextBlobId : Nat
  nextObjId : Nat
deriving Repr, DecidableEq

/-- Modelled from the spec: the blob store PUT stores the bytes under a fresh
blob id and returns that id. -/
def walrusUpload (w : World) (data : List Nat) : String × World :=
  let blobId := "walrusblob" ++ toString w.nextBlobId
  (blobId, { w with blobs := (blobId, data) :: w.blobs, nextBlobId := w.nextBlobId + 1 })

/-- Modelled from the spec: the blob store GET returns the bytes stored under
the blob id, or a NetworkError when absent. -/
def walrusRetrieve (w : World) (blobId : String) : Except WbError (List Nat) :=
  match lookupAssoc w.blobs blobId with
  | some data => .ok data
  | none => .error (.network "Walrus retrieve failed: request failed with status code 404" (some 404))

/-- Modelled from the spec: the encryption service produces a ciphertext that
is a marked container of the plaintext and is never equal to the plaintext it
wraps; the policy binding is enforced by the key servers, which are external. -/
def sealEncrypt (_policyId : String) (data : List Nat) : List Nat :=
  1 :: data

/-- Modelled from the spec: decryption under a valid session credential
inverts sealEncrypt; bytes that are not Seal ciphertext fail with an
EncryptionError. -/
def sealDecrypt (_policyId : String) (data : List Nat) : Except WbError (List Nat) :=
  match data with
  | 1 :: rest => .ok rest
  | _ => .error (.encryptionErr "Decryption failed: invalid ciphertext")

/-! ## Asset metadata cache (src/utils/cache.ts is absent from src; modelled
from the spec and its unit tests) -/

/-- One entry of the asset metadata cache. -/
structure CacheEntryA where
  value : AssetMetadata
  expiresAt : Nat
deriving Repr, DecidableEq

/-- Asset metadata cache: key to value plus expiry instant. -/
abbrev AssetCache := List (String × CacheEntryA)

/-- Modelled from the spec: src lacks utils/cache.ts; a TTL map whose get
returns the stored value while the entry has not expired and null
afterwards, per the Cache unit tests. -/
def cacheGet (cache : AssetCache) (now : Nat) (k : String) : Option AssetMetadata :=
  match lookupAssoc cache k with
  | some e => if now < e.expiresAt then some e.value else none
  | none => none

/-- Modelled from the spec: set stores the value with expiry now plus TTL. -/
def cacheSet (cache : AssetCache) (now ttlMs : Nat) (k : String) (v : AssetMetadata) :
    AssetCache :=
  (k, { value := v, expiresAt := now + ttlMs }) :: removeAssoc cache k

/-- Modelled from the spec: delete removes the entry. -/
def cacheDel (cache : AssetCache) (k : String) : AssetCache :=
  removeAssoc cache k

/-! ## Walbucket coordinator (src/core/walbucket.ts) -/

/-- State of one Walbucket SDK instance: the normalized configuration, the
signer resolved once at construction, and the two caches. -/
structure WalbucketInstance where
  config : NormalizedConfig
  signer : Option SignerModel
  apiKeyCache : ApiKeyCache
  assetCache : AssetCache
deriving Repr, DecidableEq

/-- Embedding of the Walbucket constructor: validate and normalize the
configuration, then resolve the signer once through
GasStrategyService.getSigner. -/
def construct (config : WalbucketConfig) : Except WbError WalbucketInstance :=
  match validateConfig config with
  | .error e => .error e
  | .ok c =>
    match getSigner c.gasStrategy c.sponsorPrivateKey with
    | .error e => .error e
    | .ok signer => .ok { config := c, signer := signer, apiKeyCache := [], assetCache := [] }

/-- Modelled from the spec: the Sui address derived from a held keypair. -/
def signerAddress (s : SignerModel) : String :=
  match s with
  | .keypairFromSecret k => "suiaddr:" ++ k

/-- Actual signer of a mutation submitted by this instance: the held sponsor
keypair when one exists, otherwise the wallet behind the external submission
function. -/
def actualSigner (inst : WalbucketInstance) (w : World) : String :=
  match inst.signer with
  | some s => signerAddress s
  | none => w.walletAddress

/-- Embedding of Walbucket.generateFileUrl. -/
def generateFileUrl (cfg : NormalizedConfig) (blobId : String) : String :=
  cfg.walrusAggregatorUrl ++ "/v1/blobs/" ++ blobId

/-- Embedding of UploadOptions (src/types/requests.ts). -/
structure UploadOptions where
  name : Option String
  folder : Option String
  tags : Option (List String)
  description : Option String
  category : Option String
  width : Option Nat
  height : Option Nat
  thumbnailBlobId : Option String
  encryption : Option Bool
  policy : Option EncryptionPolicy
deriving Repr, DecidableEq

/-- Embedding of UploadResult (src/types/responses.ts). -/
structure UploadResult where
  assetId : String
  blobId : String
  url : String
  encrypted : Bool
  policyId : Option String
  size : Nat
  contentType : String
  createdAt : Nat
deriving Repr, DecidableEq

/-- Trace of one upload invocation: the outcome returned (or thrown) to the
caller, the collaborator state after however many saga steps committed
(steps that committed before a failure are not rolled back), the fingerprint
cache after validation, the registration transaction submitted (when the
saga reached registration) with the id the ledger issued for it, and the
credential and developer account the invocation resolved. -/
structure UploadTrace where
  outcome : Except WbError UploadResult
  world : World
  apiKeyCache : ApiKeyCache
  regTx : Option SuiTx
  registeredAssetId : Option String
  usedKeyId : String
  usedDevAccountId : String
deriving Repr, DecidableEq

/-- Metadata parameters shared by both registration entry points, assembled
by Walbucket.upload from the prepared file and the options. -/
def mkRegParams (blobId fileName contentType : String) (size : Nat)
    (opts : UploadOptions) : UserPaysUploadParams :=
  { blobId := blobId
    name := fileName
    contentType := contentType
    size := size
    tags := opts.tags.getD []
    description := opts.description.getD ""
    category := opts.category.getD ""
    width := opts.width
    height := opts.height
    thumbnailBlobId := opts.thumbnailBlobId
    folderId := opts.folder }

/-- Conversion of the shared metadata parameters into the credentialed entry
point parameters. -/
def toCreateAssetParams (p : UserPaysUploadParams)
    (apiKeyId apiKeyHash developerAccountId : String) : CreateAssetParams :=
  { blobId := p.blobId
    name := p.name
    contentType := p.contentType
    size := p.size
    tags := p.tags
    description := p.description
    category := p.category
    width := p.width
    height := p.height
    thumbnailBlobId := p.thumbnailBlobId
    folderId := p.folderId
    apiKeyId := apiKeyId
    apiKeyHash := apiKeyHash
    developerAccountId := developerAccountId }

/-- Registration entry point selection of Walbucket.upload: the encrypted
flow always goes through the credentialed SuiService.createAsset; the plain
flow selects SuiService.uploadAssetUserPays under the user-pays strategy and
SuiService.createAsset under the developer-sponsored strategy. -/
def uploadRegTx (cfg : NormalizedConfig) (encryptionEnabled hasPolicy : Bool)
    (common : UserPaysUploadParams) (apiKeyId apiKeyHash developerAccountId : String) :
    SuiTx :=
  if encryptionEnabled && hasPolicy then
    createAssetTx cfg.packageId (toCreateAssetParams common apiKeyId apiKeyHash developerAccountId)
  else
    match cfg.gasStrategy with
    | .userPays => uploadAssetUserPaysTx cfg.packageId common
    | .developerSponsored =>
      createAssetTx cfg.packageId (toCreateAssetParams common apiKeyId apiKeyHash developerAccountId)

/-- Modelled from the spec: ledger effect of a registration mutation.  A
fresh asset id is issued; the recorded owner is attributed from the actual
transaction signer (the transaction carries no sender, see
ledgerRecordedOwner); the record carries the submitted metadata and no
policy reference yet. -/
def registerAssetEffect (w : World) (tx : SuiTx) (signerAddr : String)
    (p : UserPaysUploadParams) (now : Nat) : String × World :=
  let assetId := "0xasset" ++ toString w.nextObjId
  let record : AssetMetadata := {
    assetId := assetId
    owner := ledgerRecordedOwner tx signerAddr
    blobId := p.blobId
    url := ""
    name := p.name
    contentType := p.contentType
    size := p.size
    createdAt := now
    updatedAt := now
    policyId := none
    tags := p.tags
    description := p.description
    category := p.category
    width := p.width
    height := p.height
    thumbnailBlobId := p.thumbnailBlobId
    folderId := p.folderId }
  (assetId, { w with assets := (assetId, record) :: w.assets, nextObjId := w.nextObjId + 1 })

/-- Policy type conversion of SealService.createPolicyOnChain. -/
def policyTypeOf (t : String) : Nat :=
  if t = "public" then 0
  else if t = "wallet-gated" then 1
  else if t = "time-limited" then 2
  else if t = "password-protected" then 3
  else 0

/-- Ledger effect of SealService.createPolicyOnChain through
SuiService.createPolicy: the mutation is signed with the held signer through
the internal client, so a null signer fails; otherwise a fresh policy id is
issued and the policy record is created bound to the asset. -/
def createPolicyStep (w : World) (signer : Option SignerModel) (assetId : String)
    (policy : EncryptionPolicy) : Except WbError (String × World) :=
  match signer with
  | none => .error (.blockchain "Failed to create policy: signer required")
  | some _ =>
    let policyId := "0xpolicy" ++ toString w.nextObjId
    let rec0 : PolicyRec := { policyId := policyId, assetId := assetId,
                              policyType := policyTypeOf policy.type }
    .ok (policyId, { w with policies := (policyId, rec0) :: w.policies,
                            nextObjId := w.nextObjId + 1 })

/-- Update of the ledger asset record performed by
policy::apply_policy_to_asset_with_api_key: the policy reference is set; no
other field, in particular not the blob reference, changes. -/
def setPolicyOnAsset (assets : List (String × AssetMetadata)) (assetId policyId : String) :
    List (String × AssetMetadata) :=
  assets.map (fun kv => if kv.1 = assetId then (kv.1, { kv.2 with policyId := some policyId }) else kv)

/-- Ledger effect of SuiService.applyPolicyToAsset: signed with the held
signer through the internal client, so a null signer fails. -/
def applyPolicyStep (w : World) (signer : Option SignerModel) (assetId policyId : String) :
    Except WbError World :=
  match signer with
  | none => .error (.blockchain "Failed to apply policy: signer required")
  | some _ => .ok { w with assets := setPolicyOnAsset w.assets assetId policyId }

/-- Embedding of Walbucket.upload (src/core/walbucket.ts): validate the
credential and its upload permission, prepare the file, resolve the
developer account, and run either the six-step encrypted saga (plain upload,
credentialed registration, policy creation, policy application, encryption,
ciphertext upload) or the plain flow whose registration entry point is
selected by the gas strategy.  The returned encrypted flag is the effective
encryption option, not whether encryption happened. -/
def upload (inst : WalbucketInstance) (w : World) (now : Nat)
    (file : FileInput) (opts : UploadOptions) : UploadTrace :=
  match validateApiKey inst.apiKeyCache (inst.config.cacheTTL * 1000) w.keys now
      inst.config.apiKey none with
  | .error e =>
    { outcome := .error e, world := w, apiKeyCache := inst.apiKeyCache,
      regTx := none, registeredAssetId := none, usedKeyId := "", usedDevAccountId := "" }
  | .ok (apiKeyData, kc2) =>
    if ¬ hasPermission apiKeyData PERMISSION_UPLOAD then
      { outcome := .error (.validation "API key does not have upload permission"),
        world := w, apiKeyCache := kc2, regTx := none, registeredAssetId := none,
        usedKeyId := apiKeyData.keyId, usedDevAccountId := "" }
    else
      let fileData := fileToBuffer file
      let fileName := (optTruthyStr opts.name).getD (getFileName file)
      let contentType := getContentType file
      match getDeveloperAccountId w.keys apiKeyData.developerAddress with
      | none =>
        { outcome := .error (.validation "Developer account not found"),
          world := w, apiKeyCache := kc2, regTx := none, registeredAssetId := none,
          usedKeyId := apiKeyData.keyId, usedDevAccountId := "" }
      | some developerAccountId =>
        let apiKeyHash := sha256Hex inst.config.apiKey
        let encryptionEnabled := opts.encryption.getD inst.config.encryption
        if encryptionEnabled && opts.policy.isSome then
          if ¬ inst.config.encryption then
            { outcome := .error (.validation "Seal service not initialized. Encryption requires Seal SDK."),
              world := w, apiKeyCache := kc2, regTx := none, registeredAssetId := none,
              usedKeyId := apiKeyData.keyId, usedDevAccountId := developerAccountId }
          else
            let (plainBlobId, w1) := walrusUpload w fileData
            let common := mkRegParams plainBlobId fileName contentType fileData.length opts
            let regTx := uploadRegTx inst.config encryptionEnabled opts.policy.isSome common
              apiKeyData.keyId apiKeyHash developerAccountId
            let (assetId, w2) := registerAssetEffect w1 regTx (actualSigner inst w) common now
            match createPolicyStep w2 inst.signer assetId
                (opts.policy.getD { type := "public", addresses := none,
                                    expiration := none, password := none }) with
            | .error e =>
              { outcome := .error e, world := w2, apiKeyCache := kc2,
                regTx := some regTx, registeredAssetId := some assetId,
                usedKeyId := apiKeyData.keyId, usedDevAccountId := developerAccountId }
            | .ok (policyId, w3) =>
              match applyPolicyStep w3 inst.signer assetId policyId with
              | .error e =>
                { outcome := .error e, world := w3, apiKeyCache := kc2,
                  regTx := some regTx, registeredAssetId := some assetId,
                  usedKeyId := apiKeyData.keyId, usedDevAccountId := developerAccountId }
              | .ok w4 =>
                let encryptedData := sealEncrypt policyId fileData
                let (blobId, w5) := walrusUpload w4 encryptedData
                { outcome := .ok {
                    assetId := assetId
                    blobId := blobId
                    url := generateFileUrl inst.config blobId
                    encrypted := encryptionEnabled
                    policyId := some policyId
                    size := fileData.length
                    contentType := contentType
                    createdAt := now }
                  world := w5
                  apiKeyCache := kc2
                  regTx := some regTx
                  registeredAssetId := some assetId
                  usedKeyId := apiKeyData.keyId
                  usedDevAccountId := developerAccountId }
        else
          let (blobId, w1) := walrusUpload w fileData
          let common := mkRegParams blobId fileName contentType fileData.length opts
          let regTx := uploadRegTx inst.config encryptionEnabled opts.policy.isSome common
            apiKeyData.keyId apiKeyHash developerAccountId
          let (assetId, w2) := registerAssetEffect w1 regTx (actualSigner inst w) common now
          { outcome := .ok {
              assetId := assetId
              blobId := blobId
              url := generateFileUrl inst.config blobId
              encrypted := encryptionEnabled
              policyId := none
              size := fileData.length
              contentType := contentType
              createdAt := now }
            world := w2
            apiKeyCache := kc2
            regTx := some regTx
            registeredAssetId := some assetId
            usedKeyId := apiKeyData.keyId
            usedDevAccountId := developerAccountId }

/-- Embedding of RetrieveOptions (src/types/requests.ts); the session key is
represented by its presence. -/
structure RetrieveOptions where
  decrypt : Option Bool
  hasSessionKey : Bool
deriving Repr, DecidableEq

/-- Embedding of RetrieveResult (src/types/responses.ts). -/
structure RetrieveResult where
  data : List Nat
  url : String
  metadata : AssetMetadata
deriving Repr, DecidableEq

/-- Embedding of Walbucket.retrieve: validate the credential and its read
permission, fetch the asset cache-first (populating the cache on a miss),
fetch the blob referenced by the asset record, and decrypt when the asset
carries a policy reference and decryption is requested (the default when a
policy exists), requiring a session credential. -/
def retrieve (inst : WalbucketInstance) (w : World) (now : Nat) (assetId : String)
    (opts : RetrieveOptions) : Except WbError (RetrieveResult × WalbucketInstance) :=
  match validateApiKey inst.apiKeyCache (inst.config.cacheTTL * 1000) w.keys now
      inst.config.apiKey none with
  | .error e => .error e
  | .ok (apiKeyData, kc2) =>
    if ¬ hasPermission apiKeyData PERMISSION_READ then
      .error (.validation "API key does not have read permission")
    else
      let fetched : Except WbError (AssetMetadata × AssetCache) :=
        match cacheGet inst.assetCache now assetId with
        | some a => .ok (a, inst.assetCache)
        | none =>
          match lookupAssoc w.assets assetId with
          | none => .error (.validation "Asset not found")
          | some a0 =>
            let a := { a0 with url := generateFileUrl inst.config a0.blobId }
            .ok (a, cacheSet inst.assetCache now (inst.config.cacheTTL * 1000) assetId a)
      match fetched with
      | .error e => .error e
      | .ok (asset, ac2) =>
        match walrusRetrieve w asset.blobId with
        | .error e => .error e
        | .ok encryptedData =>
          let shouldDecrypt := opts.decrypt.getD asset.policyId.isSome
          let inst2 := { inst with apiKeyCache := kc2, assetCache := ac2 }
          match asset.policyId with
          | some pid =>
            if shouldDecrypt then
              if ¬ inst.config.encryption then
                .error (.validation "Seal service not initialized. Decryption requires Seal SDK.")
              else if ¬ opts.hasSessionKey then
                .error (.validation "SessionKey is required for decryption.")
              else
                match sealDecrypt pid encryptedData with
                | .error e => .error e
                | .ok decryptedData =>
                  .ok ({ data := decryptedData,
                         url := generateFileUrl inst.config asset.blobId,
                         metadata := asset }, inst2)
            else
              .ok ({ data := encryptedData,
                     url := generateFileUrl inst.config asset.blobId,
                     metadata := asset }, inst2)
          | none =>
            .ok ({ data := encryptedData,
                   url := generateFileUrl inst.config asset.blobId,
                   metadata := asset }, inst2)

/-- Outcome of Walbucket.getAsset: the metadata (or null), the instance with
its possibly updated cache, and whether the ledger was queried. -/
structure GetAssetOutcome where
  asset : Option AssetMetadata
  inst : WalbucketInstance
  queriedLedger : Bool
deriving Repr, DecidableEq

/-- Embedding of Walbucket.getAsset: cache first; on a miss the ledger is
queried, the url generated and the cache populated. -/
def getAsset (inst : WalbucketInstance) (w : World) (now : Nat) (assetId : String) :
    GetAssetOutcome :=
  match cacheGet inst.assetCache now assetId with
  | some cached => { asset := some cached, inst := inst, queriedLedger := false }
  | none =>
    match lookupAssoc w.assets assetId with
    | some a0 =>
      let a := { a0 with url := generateFileUrl inst.config a0.blobId }
      { asset := some a
        inst := { inst with assetCache := cacheSet inst.assetCache now (inst.config.cacheTTL * 1000) assetId a }
        queriedLedger := true }
    | none => { asset := none, inst := inst, queriedLedger := true }

/-- Ledger effect of the rename entry points. -/
def renameAssetEffect (assets : List (String × AssetMetadata)) (assetId newName : String) :
    List (String × AssetMetadata) :=
  assets.map (fun kv => if kv.1 = assetId then (kv.1, { kv.2 with name := newName }) else kv)

/-- Ledger effect of the move-to-folder entry points. -/
def moveAssetEffect (assets : List (String × AssetMetadata)) (assetId : String)
    (folderId : Option String) : List (String × AssetMetadata) :=
  assets.map (fun kv => if kv.1 = assetId then (kv.1, { kv.2 with folderId := folderId }) else kv)

/-- Embedding of Walbucket.rename: user-pays routes through
SuiService.renameAsset (which requires the submission function and user
address), developer-sponsored validates the credential and resolves the
developer account before SuiService.renameAssetWithApiKey; in both branches
the cache entry for the asset is deleted afterwards. -/
def rename (inst : WalbucketInstance) (w : World) (now : Nat)
    (assetId newName : String) : Except WbError (WalbucketInstance × World) :=
  match inst.config.gasStrategy with
  | .userPays =>
    if inst.config.hasSignAndExecuteTransaction ∧ (optTruthyStr inst.config.userAddress).isSome then
      .ok ({ inst with assetCache := cacheDel inst.assetCache assetId },
           { w with assets := renameAssetEffect w.assets assetId newName })
    else
      .error (.blockchain "User-pays transaction not supported. signAndExecuteFn and userAddress required.")
  | .developerSponsored =>
    match validateApiKey inst.apiKeyCache (inst.config.cacheTTL * 1000) w.keys now
        inst.config.apiKey none with
    | .error e => .error e
    | .ok (apiKeyData, kc2) =>
      match getDeveloperAccountId w.keys apiKeyData.developerAddress with
      | none => .error (.validation "Developer account not found")
      | some _ =>
        .ok ({ inst with apiKeyCache := kc2, assetCache := cacheDel inst.assetCache assetId },
             { w with assets := renameAssetEffect w.assets assetId newName })

/-- Embedding of Walbucket.moveToFolder, with the same binary routing as
rename and the same cache invalidation afterwards. -/
def moveToFolder (inst : WalbucketInstance) (w : World) (now : Nat)
    (assetId : String) (folderId : Option String) :
    Except WbError (WalbucketInstance × World) :=
  match inst.config.gasStrategy with
  | .userPays =>
    if inst.config.hasSignAndExecuteTransaction ∧ (optTruthyStr inst.config.userAddress).isSome then
      .ok ({ inst with assetCache := cacheDel inst.assetCache assetId },
           { w with assets := moveAssetEffect w.assets assetId folderId })
    else
      .error (.blockchain "User-pays transaction not supported. signAndExecuteFn and userAddress required.")
  | .developerSponsored =>
    match validateApiKey inst.apiKeyCache (inst.config.cacheTTL * 1000) w.keys now
        inst.config.apiKey none with
    | .error e => .error e
    | .ok (apiKeyData, kc2) =>
      match getDeveloperAccountId w.keys apiKeyData.developerAddress with
      | none => .error (.validation "Developer account not found")
      | some _ =>
        .ok ({ inst with apiKeyCache := kc2, assetCache := cacheDel inst.assetCache assetId },
             { w with assets := moveAssetEffect w.assets assetId folderId })

/-- Embedding of Walbucket.delete: validate the credential and its delete
permission, fetch the asset (cache first), resolve the developer account,
delete the ledger record, then best-effort blob deletion whose failure is
swallowed by the surrounding try, and finally clear the cache entry.  The
outcome of the blob-store DELETE call is supplied by the environment as an
optional failure status. -/
def deleteOp (inst : WalbucketInstance) (w : World) (now : Nat) (assetId : String)
    (blobDeleteStatus : Option Nat) : Except WbError (WalbucketInstance × World) :=
  match validateApiKey inst.apiKeyCache (inst.config.cacheTTL * 1000) w.keys now
      inst.config.apiKey none with
  | .error e => .error e
  | .ok (apiKeyData, kc2) =>
    if ¬ hasPermission apiKeyData PERMISSION_DELETE then
      .error (.validation "API key does not have delete permission")
    else
      let asset? :=
        match cacheGet inst.assetCache now assetId with
        | some a => some a
        | none => lookupAssoc w.assets assetId
      match asset? with
      | none => .error (.validation "Asset not found")
      | some asset =>
        match getDeveloperAccountId w.keys apiKeyData.developerAddress with
        | none => .error (.validation "Developer account not found")
        | some _ =>
          let w2 := { w with assets := removeAssoc w.assets assetId }
          let w3 :=
            match WalrusService.deleteBlob blobDeleteStatus with
            | .ok _ => { w2 with blobs := removeAssoc w2.blobs asset.blobId }
            | .error _ => w2
          .ok ({ inst with apiKeyCache := kc2, assetCache := cacheDel inst.assetCache assetId }, w3)

/-! ## Concrete environments used by witnesses and counterexamples -/

/-- Example on-ledger key object: active, never expiring, all permissions. -/
def exKeyFields : ApiKeyFields :=
  { apiKeyHash := sha256Hex "test-api-key", isActive := true, expiresAt := 0,
    permissions := 31, developerAddress := "0xdev", name := "main",
    rateLimit := 0, createdAt := 0, usageCount := 0, lastUsedAt := 0 }

/-- Example credential ledger with one key and one developer account. -/
def exKeys : KeyLedger :=
  { apiKeyEvents := ["0xkey1"],
    apiKeyObjects := [("0xkey1", exKeyFields)],
    devAccountEvents := [("0xdev", "0xdevacct")] }

/-- Example world: empty stores, the example credential ledger, one wallet. -/
def exWorld : World :=
  { blobs := [], assets := [], policies := [], keys := exKeys,
    walletAddress := "0xwallet", nextBlobId := 0, nextObjId := 0 }

/-- Normalized developer-sponsored configuration with encryption disabled. -/
def exCfgSponsoredPlain : NormalizedConfig :=
  { apiKey := "test-api-key", network := .testnet, encryption := false,
    gasStrategy := .developerSponsored, sponsorPrivateKey := some "0xabc",
    hasSignAndExecuteTransaction := false, userAddress := none,
    packageId := "0xpkg", walrusPublisherUrl := "https://pub",
    walrusAggregatorUrl := "https://agg", cacheTTL := 3600 }

/-- Normalized developer-sponsored configuration with encryption enabled. -/
def exCfgSponsoredEnc : NormalizedConfig :=
  { exCfgSponsoredPlain with encryption := true }

/-- Normalized user-pays configuration with encryption enabled. -/
def exCfgUserPays : NormalizedConfig :=
  { apiKey := "test-api-key", network := .testnet, encryption := true,
    gasStrategy := .userPays, sponsorPrivateKey := none,
    hasSignAndExecuteTransaction := true, userAddress := some "0xwallet",
    packageId := "0xpkg", walrusPublisherUrl := "https://pub",
    walrusAggregatorUrl := "https://agg", cacheTTL := 3600 }

/-- Instance under the sponsored strategy, encryption disabled. -/
def exInstSponsoredPlain : WalbucketInstance :=
  { config := exCfgSponsoredPlain, signer := some (.keypairFromSecret "0xabc"),
    apiKeyCache := [], assetCache := [] }

/-- Instance under the sponsored strategy, encryption enabled. -/
def exInstSponsoredEnc : WalbucketInstance :=
  { config := exCfgSponsoredEnc, signer := some (.keypairFromSecret "0xabc"),
    apiKeyCache := [], assetCache := [] }

/-- Instance under the user-pays strategy (null signer). -/
def exInstUserPays : WalbucketInstance :=
  { config := exCfgUserPays, signer := none, apiKeyCache := [], assetCache := [] }

/-- Upload options with every field absent. -/
def exOptsNone : UploadOptions :=
  { name := none, folder := none, tags := none, description := none,
    category := none, width := none, height := none, thumbnailBlobId := none,
    encryption := none, policy := none }

/-- Public encryption policy option. -/
def exPolicy : EncryptionPolicy :=
  { type := "public", addresses := none, expiration := none, password := none }

/-- Upload options carrying a policy. -/
def exOptsPolicy : UploadOptions :=
  { exOptsNone with policy := some exPolicy }

/-- Encrypted upload under the sponsored strategy, used to examine the
retrieval path of an encrypted asset. -/
def exEncUploadTrace : UploadTrace :=
  upload exInstSponsoredEnc exWorld 0 (.buffer [2, 3, 4]) exOptsPolicy

/-- Encrypted upload attempted under the user-pays strategy. -/
def exUserPaysEncTrace : UploadTrace :=
  upload exInstUserPays exWorld 0 (.buffer [2, 3, 4]) exOptsPolicy

/-- Expired but still active on-ledger key object (expiry instant one
on-chain second, in the past from the perspective of time 5000 ms). -/
def exExpiredFields : ApiKeyFields :=
  { apiKeyHash := sha256Hex "k2", isActive := true, expiresAt := 1,
    permissions := 31, developerAddress := "0xdev", name := "",
    rateLimit := 0, createdAt := 0, usageCount := 0, lastUsedAt := 0 }

/-- Credential ledger holding only the expired key. -/
def exKeysExpired : KeyLedger :=
  { apiKeyEvents := ["0xkey2"],
    apiKeyObjects := [("0xkey2", exExpiredFields)],
    devAccountEvents := [("0xdev", "0xdevacct")] }

/-- Validated record as it was cached before the key expired. -/
def exStaleData : ApiKeyData :=
  { keyId := "0xkey2", developerAddress := "0xdev", name := "",
    permissions := 31, rateLimit := 0, createdAt := 0, expiresAt := 1000,
    isActive := true, usageCount := 0, lastUsedAt := 0 }

/-- Fingerprint cache holding the stale record, fresh until 10000 ms. -/
def exStaleCache : ApiKeyCache :=
  [(sha256Hex "k2", { data := exStaleData, expiresAt := 10000 })]

/-- Example asset record for cache and mutation tests. -/
def exAsset : AssetMetadata :=
  { assetId := "0xa1", owner := "suiaddr:0xabc", blobId := "walrusblobA",
    url := "", name := "pic.png", contentType := "image/png", size := 4,
    createdAt := 0, updatedAt := 0, policyId := none, tags := [],
    description := "", category := "", width := none, height := none,
    thumbnailBlobId := none, folderId := none }

/-- World holding the example asset and its blob. -/
def exWorldA : World :=
  { blobs := [("walrusblobA", [9, 9, 9, 9])],
    assets := [("0xa1", exAsset)],
    policies := [], keys := exKeys, walletAddress := "0xwallet",
    nextBlobId := 1, nextObjId := 1 }

/-- Raw user-pays configuration carrying the submission function but no
invoking address. -/
def exRawCfgUserPaysNoAddr : WalbucketConfig :=
  { apiKey := "test-api-key", network := some .testnet, encryption := some true,
    gasStrategy := some .userPays, sponsorPrivateKey := none,
    hasSignAndExecuteTransaction := true, userAddress := none,
    packageId := some "0xpkg", walrusPublisherUrl := none,
    walrusAggregatorUrl := none, cacheTTL := none }

/-- Plain sponsored upload of two bytes, used as a concrete registration. -/
def exPlainTrace : UploadTrace :=
  upload exInstSponsoredPlain exWorld 0 (.buffer [1, 2]) exOptsNone

/-- Registration transaction expected for exPlainTrace. -/
def exPlainRegTx : SuiTx :=
  uploadRegTx exCfgSponsoredPlain false false
    (mkRegParams "walrusblob0" "untitled" "application/octet-stream" 2 exOptsNone)
    "0xkey1" (sha256Hex "test-api-key") "0xdevacct"

/-- Validated record produced for the example key. -/
def exKeyData : ApiKeyData :=
  { keyId := "0xkey1", developerAddress := "0xdev", name := "main",
    permissions := 31, rateLimit := 0, createdAt := 0, expiresAt := 0,
    isActive := true, usageCount := 0, lastUsedAt := 0 }

/-- Fingerprint cache after validating the example key at time 0 with the
default TTL. -/
def exKeyCacheAfter : ApiKeyCache :=
  [(sha256Hex "test-api-key", { data := exKeyData, expiresAt := 3600000 })]

/-- Example asset with its url generated, as getAsset caches it. -/
def exAssetWithUrl : AssetMetadata :=
  { exAsset with url := generateFileUrl exCfgSponsoredPlain "walrusblobA" }

/-- Raw sponsored configuration without a sponsor key. -/
def exRawCfgSponsoredNoKey : WalbucketConfig :=
  { apiKey := "k", network := none, encryption := none,
    gasStrategy := none, sponsorPrivateKey := none,
    hasSignAndExecuteTransaction := false, userAddress := none,
    packageId := none, walrusPublisherUrl := none, walrusAggregatorUrl := none,
    cacheTTL := none }

/-- Raw user-pays configuration without the submission function. -/
def exRawCfgUserPaysNoFn : WalbucketConfig :=
  { exRawCfgSponsoredNoKey with gasStrategy := some .userPays }

/-- Raw sponsored configuration with a sponsor key. -/
def exRawCfgSponsoredOk : WalbucketConfig :=
  { exRawCfgSponsoredNoKey with sponsorPrivateKey := some "0xabc" }

/-! ## Helper lemmas -/

theorem lookupAssoc_removeAssoc {α : Type} (l : List (String × α)) (k : String) :
    lookupAssoc (removeAssoc l k) k = none := by
  induction l with
  | nil => rfl
  | cons hd tl ih =>
    rcases hd with ⟨k2, v⟩
    by_cases hk : k2 = k
    · simpa [removeAssoc, hk] using ih
    · simpa [removeAssoc, lookupAssoc, hk] using ih

theorem cacheGet_cacheDel (c : AssetCache) (now : Nat) (k : String) :
    cacheGet (cacheDel c k) now k = none := by
  simp [cacheGet, cacheDel, lookupAssoc_removeAssoc]

theorem uploadRegTx_sender (cfg : NormalizedConfig) (e hp : Bool)
    (c : UserPaysUploadParams) (kid khash did : String) :
    (uploadRegTx cfg e hp c kid khash did).sender = none := by
  unfold uploadRegTx
  split
  · rfl
  · cases cfg.gasStrategy <;> rfl

theorem objectArgs_createAssetTx (pid : String) (p : CreateAssetParams) :
    objectArgs (createAssetTx pid p) = [p.apiKeyId, p.developerAccountId, "0x6"] := by
  rfl

theorem objectArgs_uploadAssetUserPaysTx (pid : String) (p : UserPaysUploadParams) :
    objectArgs (uploadAssetUserPaysTx pid p) = ["0x6"] := by
  rfl

/-! ## C3 -/

/-- C3: for an externally submitted registration whose immediate response
carries a transaction digest (in particular when it carries no effects), the
reconciler waits the fixed 3000 ms grace interval and requeries the
transaction by that digest requesting effects, object changes and events;
when the requeried result yields no id from the effects created list but an
id from the object-changes list filtered to created entries, that id is
returned; when neither source yields an id the outcome is a BlockchainError
whose message carries the digest. -/
theorem createAssetReconcile_requery_and_extract
    (immediate : TxResultR) (indexed : String → TxResultR) (d : String)
    (hd1 : immediate.digest = some d) (hd2 : d ≠ "")
    (_heff : immediate.effects = none) :
    (createAssetReconcile immediate indexed).waitedMs = 3000 ∧
    (createAssetReconcile immediate indexed).requery =
      some (d, { showEffects := true, showObjectChanges := true, showEvents := true }) ∧
    (∀ id, idFromEffects (indexed d) = none → idFromObjectChanges (indexed d) = some id →
      (createAssetReconcile immediate indexed).outcome = .ok id) ∧
    (idFromEffects (indexed d) = none → idFromObjectChanges (indexed d) = none →
      (createAssetReconcile immediate indexed).outcome =
        .error (.blockchain ("Failed to get asset ID from transaction. Digest: " ++ d))) := by
  have hdig : digestOf immediate = some d := by
    simp [digestOf, hd1, optTruthyStr, hd2]
  refine ⟨?_, ?_, ?_, ?_⟩
  · simp [createAssetReconcile, hdig]
  · simp [createAssetReconcile, hdig]
  · intro id h1 h2
    simp [createAssetReconcile, hdig, extractAssetId, h1, h2]
  · intro h1 h2
    simp [createAssetReconcile, hdig, extractAssetId, h1, h2]

/-- Witness for C3: a response carrying only the digest, requeried into a
result whose created id appears only in objectChanges, reconciles to that id. -/
theorem createAssetReconcile_requery_and_extract_witness :
    ({ digest := some "D1", effects := none, objectChanges := none } : TxResultR).digest
        = some "D1" ∧
    (createAssetReconcile { digest := some "D1", effects := none, objectChanges := none }
        (fun _ => { digest := some "D1",
                    effects := some { created := none, transactionDigest := none },
                    objectChanges := some [{ type := "created", objectId := "0xnew",
                                             objectType := "pkg::asset::Asset" }] })).outcome
      = .ok "0xnew" := by
  refine ⟨rfl, ?_⟩
  exact (createAssetReconcile_requery_and_extract
    { digest := some "D1", effects := none, objectChanges := none }
    (fun _ => { digest := some "D1",
                effects := some { created := none, transactionDigest := none },
                objectChanges := some [{ type := "created", objectId := "0xnew",
                                         objectType := "pkg::asset::Asset" }] })
    "D1" rfl (by decide) rfl).2.2.1 "0xnew" (by decide) (by decide)

/-! ## C5 -/

/-- C5 counterexample: a call served from the fingerprint cache within its
TTL succeeds although the on-ledger record is already expired (active flag
true, expiry instant 1000 ms, call at 5000 ms, cache entry fresh until
10000 ms), so validation does not fail with a ValidationError on every call
made while the record violates the usability invariant. -/
theorem validateApiKey_cache_hit_ignores_expiry :
    validateApiKey exStaleCache 3600000 exKeysExpired 5000 "k2" none
      = .ok (exStaleData, exStaleCache) ∧
    lookupAssoc exKeysExpired.apiKeyObjects "0xkey2" = some exExpiredFields ∧
    exExpiredFields.isActive = true ∧
    exExpiredFields.expiresAt * 1000 > 0 ∧
    5000 ≥ exExpiredFields.expiresAt * 1000 := by
  decide

/-- C5 as amended: on validations that reach the ledger (no fresh
fingerprint-cache entry), an otherwise-valid credential whose expiry is in
the past fails with a ValidationError; a presented secret with no active
matching stored hash (covering both a non-matching hash and an inactive
record) is treated as not found; and with a known object id, a hash mismatch
and an inactive record each fail with a ValidationError.  Calls served from
the fingerprint cache within its TTL return the cached record without any
re-check. -/
theorem validateApiKey_fresh_path_checks (cache : ApiKeyCache) (ttl : Nat)
    (kl : KeyLedger) (now : Nat) (apiKey keyId : String) (fields : ApiKeyFields)
    (hmiss : ∀ e, lookupAssoc cache (sha256Hex apiKey) = some e → ¬ (e.expiresAt > now)) :
    (findApiKeyObjectId kl (sha256Hex apiKey) = some keyId →
      lookupAssoc kl.apiKeyObjects keyId = some fields →
      fields.apiKeyHash = sha256Hex apiKey →
      fields.expiresAt * 1000 > 0 → now ≥ fields.expiresAt * 1000 →
      validateApiKey cache ttl kl now apiKey none
        = .error (.validation "API key has expired")) ∧
    (findApiKeyObjectId kl (sha256Hex apiKey) = none →
      validateApiKey cache ttl kl now apiKey none
        = .error (.validation "API key not found")) ∧
    (lookupAssoc kl.apiKeyObjects keyId = some fields →
      fields.apiKeyHash ≠ sha256Hex apiKey →
      validateApiKey cache ttl kl now apiKey (some keyId)
        = .error (.validation "Invalid API key hash")) ∧
    (lookupAssoc kl.apiKeyObjects keyId = some fields →
      fields.apiKeyHash = sha256Hex apiKey →
      ¬ (fields.expiresAt * 1000 > 0 ∧ now ≥ fields.expiresAt * 1000) →
      fields.isActive = false →
      validateApiKey cache ttl kl now apiKey (some keyId)
        = .error (.validation "API key is not active")) := by
  have hcached : (match lookupAssoc cache (sha256Hex apiKey) with
      | some e => if e.expiresAt > now then some e.data else none
      | none => none) = (none : Option ApiKeyData) := by
    rcases hc : lookupAssoc cache (sha256Hex apiKey) with _ | e
    · rfl
    · simp [hmiss e hc]
  refine ⟨?_, ?_, ?_, ?_⟩
  · intro h1 h2 h3 h4 h5
    simp [validateApiKey, hcached, h1, h2, h3, h4, h5]
  · intro h1
    simp [validateApiKey, hcached, h1]
  · intro h1 h2
    simp [validateApiKey, hcached, h1, h2]
  · intro h1 h2 h3 h4
    push_neg at h3
    simp [validateApiKey, hcached, h1, h2, h4]
    intro h5
    exact h3 (by omega)

/-- Witness for C5: with an empty cache, the expired-but-active example key
is located by the event scan and rejected as expired; an unknown fingerprint
is reported as not found. -/
theorem validateApiKey_fresh_path_checks_witness :
    validateApiKey [] 3600000 exKeysExpired 5000 "k2" none
      = .error (.validation "API key has expired") ∧
    validateApiKey [] 3600000 exKeysExpired 5000 "other" none
      = .error (.validation "API key not found") := by
  constructor
  · exact (validateApiKey_fresh_path_checks [] 3600000 exKeysExpired 5000 "k2"
      "0xkey2" exExpiredFields (by intro e h; simp [lookupAssoc] at h)).1
      (by decide) (by decide) (by decide) (by decide) (by decide)
  · exact (validateApiKey_fresh_path_checks [] 3600000 exKeysExpired 5000 "other"
      "0xkey2" exExpiredFields (by intro e h; simp [lookupAssoc] at h)).2.1
      (by decide)

/-! ## C8 -/

/-- C8 counterexample: a user-pays configuration carrying the submission
function but no invoking address constructs successfully, so construction
does not fail closed on an absent invoking address. -/
theorem construct_userPays_without_address_succeeds :
    exRawCfgUserPaysNoAddr.userAddress = none ∧
    exRawCfgUserPaysNoAddr.gasStrategy = some .userPays ∧
    (construct exRawCfgUserPaysNoAddr).isOk = true := by
  decide

/-- C8 as amended: the gas-strategy resolver, evaluated once at
construction, yields the held sponsor keypair for the sponsored strategy and
null for self-pay, and construction fails closed with a configuration error
when the sponsor private key is absent under the sponsored strategy or the
external submission function is absent under self-pay; the invoking address
is not required at construction. -/
theorem construct_gas_strategy_resolution (config : WalbucketConfig) :
    (config.gasStrategy.getD .developerSponsored = .developerSponsored →
      optTruthyStr config.sponsorPrivateKey = none →
      ∃ msg, construct config = .error (.configuration msg)) ∧
    (config.gasStrategy.getD .developerSponsored = .userPays →
      config.hasSignAndExecuteTransaction = false →
      ∃ msg, construct config = .error (.configuration msg)) ∧
    (∀ inst, construct config = .ok inst →
      (inst.config.gasStrategy = .developerSponsored →
        ∃ k, optTruthyStr inst.config.sponsorPrivateKey = some k ∧
          inst.signer = some (.keypairFromSecret k)) ∧
      (inst.config.gasStrategy = .userPays → inst.signer = none)) := by
  refine ⟨?_, ?_, ?_⟩
  · intro h1 h2
    by_cases ha : config.apiKey = ""
    · exact ⟨"API key is required", by simp [construct, validateConfig, ha]⟩
    · exact ⟨"sponsorPrivateKey is required when gasStrategy is developer-sponsored",
        by simp [construct, validateConfig, ha, h1, h2]⟩
  · intro h1 h2
    by_cases ha : config.apiKey = ""
    · exact ⟨"API key is required", by simp [construct, validateConfig, ha]⟩
    · exact ⟨"signAndExecuteTransaction function is required when gasStrategy is user-pays",
        by simp [construct, validateConfig, ha, h1, h2]⟩
  · intro inst h
    unfold construct at h
    rcases hvc : validateConfig config with e | c <;> simp only [hvc] at h
    · cases h
    · rcases hs : getSigner c.gasStrategy c.sponsorPrivateKey with e2 | so <;> simp only [hs] at h
      · cases h
      · injection h with h1
        subst h1
        unfold getSigner at hs
        rcases hg : c.gasStrategy with _ | _ <;> rw [hg] at hs
        · rcases hk : optTruthyStr c.sponsorPrivateKey with _ | k <;> rw [hk] at hs
          · cases hs
          · injection hs with hs1
            subst hs1
            refine ⟨fun _ => ⟨k, rfl, rfl⟩, fun hcontr => ?_⟩
            simp [hg] at hcontr
        · injection hs with hs1
          subst hs1
          refine ⟨fun hcontr => ?_, fun _ => rfl⟩
          simp [hg] at hcontr

/-- Witness for C8: construction fails closed on a sponsored configuration
without a sponsor key and on a user-pays configuration without the
submission function; a well-formed sponsored configuration resolves to the
held keypair. -/
theorem construct_gas_strategy_resolution_witness :
    (∃ msg, construct exRawCfgSponsoredNoKey = .error (.configuration msg)) ∧
    (∃ msg, construct exRawCfgUserPaysNoFn = .error (.configuration msg)) ∧
    ((construct exRawCfgSponsoredOk).toOption.map (fun i => i.signer)
      = some (some (.keypairFromSecret "0xabc"))) := by
  refine ⟨?_, ?_, by decide⟩
  · exact (construct_gas_strategy_resolution exRawCfgSponsoredNoKey).1 rfl rfl
  · exact (construct_gas_strategy_resolution exRawCfgUserPaysNoFn).2.1 rfl rfl

/-! ## Upload registration characterization (shared by the ownership and
entry-point claims) -/

theorem lookupAssoc_setPolicyOnAsset_owner (l : List (String × AssetMetadata))
    (aid pid x : String) :
    (lookupAssoc (setPolicyOnAsset l aid pid) x).map AssetMetadata.owner
      = (lookupAssoc l x).map AssetMetadata.owner := by
  induction l with
  | nil => rfl
  | cons hd tl ih =>
    rcases hd with ⟨k, v⟩
    by_cases hk : k = aid
    · subst hk
      have hset : setPolicyOnAsset ((k, v) :: tl) k pid
          = (k, { v with policyId := some pid }) :: setPolicyOnAsset tl k pid := by
        simp [setPolicyOnAsset]
      rw [hset]
      by_cases hx : k = x
      · subst hx
        simp [lookupAssoc]
      · simp only [lookupAssoc, if_neg hx]
        exact ih
    · have hset : setPolicyOnAsset ((k, v) :: tl) aid pid
          = (k, v) :: setPolicyOnAsset tl aid pid := by
        simp [setPolicyOnAsset, hk]
      rw [hset]
      by_cases hx : k = x
      · subst hx
        simp [lookupAssoc]
      · simp only [lookupAssoc, if_neg hx]
        exact ih

theorem upload_reg_spec (inst : WalbucketInstance) (w : World) (now : Nat)
    (file : FileInput) (opts : UploadOptions) (tx : SuiTx)
    (htx : (upload inst w now file opts).regTx = some tx) :
    (∃ common, tx = uploadRegTx inst.config (opts.encryption.getD inst.config.encryption)
        opts.policy.isSome common (upload inst w now file opts).usedKeyId
        (sha256Hex inst.config.apiKey) (upload inst w now file opts).usedDevAccountId) ∧
    (∀ aid, (upload inst w now file opts).registeredAssetId = some aid →
      (lookupAssoc (upload inst w now file opts).world.assets aid).map AssetMetadata.owner =
        some (ledgerRecordedOwner tx (actualSigner inst w))) := by
  unfold upload at htx ⊢
  rcases hval : validateApiKey inst.apiKeyCache (inst.config.cacheTTL * 1000) w.keys now
      inst.config.apiKey none with e | ⟨d, kc⟩ <;> simp only [hval] at htx ⊢
  · simp at htx
  by_cases hperm : hasPermission d PERMISSION_UPLOAD = true <;>
    simp only [hperm, not_true, not_false_iff, if_true, if_false, Bool.not_true,
      Bool.not_false, ite_true, ite_false] at htx ⊢
  case neg => simp at htx
  rcases hdev : getDeveloperAccountId w.keys d.developerAddress with _ | did <;>
    simp only [hdev] at htx ⊢
  · simp at htx
  by_cases hbr : ((opts.encryption.getD inst.config.encryption) && opts.policy.isSome) = true <;>
    simp only [hbr, if_true, if_false, ite_true, ite_false, Bool.false_eq_true] at htx ⊢
  · by_cases hse : inst.config.encryption = true <;>
      simp only [hse, not_true, not_false_iff, if_true, if_false, ite_true, ite_false,
        Bool.not_true, Bool.not_false, walrusUpload, registerAssetEffect] at htx ⊢
    case neg => simp at htx
    rcases hsig : inst.signer with _ | s <;>
      simp only [hsig, createPolicyStep, applyPolicyStep, walrusUpload] at htx ⊢
    · rw [Option.some.injEq] at htx
      subst htx
      refine ⟨⟨_, rfl⟩, fun aid haid => ?_⟩
      rw [Option.some.injEq] at haid
      subst haid
      simp [lookupAssoc]
    · rw [Option.some.injEq] at htx
      subst htx
      refine ⟨⟨_, rfl⟩, fun aid haid => ?_⟩
      rw [Option.some.injEq] at haid
      subst haid
      rw [lookupAssoc_setPolicyOnAsset_owner]
      simp [lookupAssoc]
  · simp only [walrusUpload, registerAssetEffect] at htx ⊢
    rw [Option.some.injEq] at htx
    subst htx
    refine ⟨⟨_, rfl⟩, fun aid haid => ?_⟩
    rw [Option.some.injEq] at haid
    subst haid
    simp [lookupAssoc]

/-! ## C1 -/

/-- C1: every registration transaction built by upload leaves the sender
unset and passes no owner as data, so the ledger-recorded owner of the asset
it registered equals the actual transaction signer — identically under the
self-pay and sponsored authorization paths, which differ only in the entry
point selected. -/
theorem upload_registration_owner_is_signer (inst : WalbucketInstance) (w : World)
    (now : Nat) (file : FileInput) (opts : UploadOptions) (tx : SuiTx)
    (htx : (upload inst w now file opts).regTx = some tx) :
    tx.sender = none ∧
    (∀ aid, (upload inst w now file opts).registeredAssetId = some aid →
      (lookupAssoc (upload inst w now file opts).world.assets aid).map AssetMetadata.owner =
        some (actualSigner inst w)) := by
  obtain ⟨⟨common, hcommon⟩, hown⟩ := upload_reg_spec inst w now file opts tx htx
  have hsender : tx.sender = none := by
    rw [hcommon]
    exact uploadRegTx_sender _ _ _ _ _ _ _
  refine ⟨hsender, fun aid haid => ?_⟩
  rw [hown aid haid]
  simp [ledgerRecordedOwner, hsender]

/-- Witness for C1: the concrete plain sponsored upload registers its asset
through a senderless transaction and the ledger attributes the owner from
the sponsor keypair, the actual signer. -/
theorem upload_registration_owner_is_signer_witness :
    exPlainTrace.regTx = some exPlainRegTx ∧
    exPlainRegTx.sender = none ∧
    (lookupAssoc exPlainTrace.world.assets "0xasset0").map AssetMetadata.owner
      = some (actualSigner exInstSponsoredPlain exWorld) := by
  have h1 : exPlainTrace.regTx = some exPlainRegTx := by decide
  have h := upload_registration_owner_is_signer exInstSponsoredPlain exWorld 0
    (.buffer [1, 2]) exOptsNone exPlainRegTx h1
  exact ⟨h1, h.1, h.2 "0xasset0" (by decide)⟩

/-! ## C2 -/

/-- C2 counterexample: in the encrypted-upload flow under the self-pay
(user-pays) strategy, the registration call still references the credential
object, and the registration has committed on the ledger by the time the
saga fails, so an asset is created under self-pay whose registration call
referenced the credential. -/
theorem userPays_encrypted_registration_references_credential :
    exInstUserPays.config.gasStrategy = .userPays ∧
    exUserPaysEncTrace.usedKeyId = "0xkey1" ∧
    (exUserPaysEncTrace.regTx.map (fun tx => referencesObject tx "0xkey1")) = some true ∧
    exUserPaysEncTrace.registeredAssetId = some "0xasset0" ∧
    (lookupAssoc exUserPaysEncTrace.world.assets "0xasset0").isSome = true := by
  decide

/-- C2 as amended: in the plain flow the registration entry point is selected
solely by the configured strategy — self-pay builds the credential-free
asset::upload_asset call whose only object argument is the clock, sponsored
builds the credentialed asset::upload_asset_with_api_key call referencing
the credential and developer account objects — while the encrypted-upload
flow always builds the credentialed call regardless of strategy. -/
theorem uploadRegTx_entry_point_selection (cfg : NormalizedConfig) (e hp : Bool)
    (common : UserPaysUploadParams) (kid khash did : String) :
    ((e && hp) = false →
      (cfg.gasStrategy = .userPays →
        objectArgs (uploadRegTx cfg e hp common kid khash did) = ["0x6"]) ∧
      (cfg.gasStrategy = .developerSponsored →
        objectArgs (uploadRegTx cfg e hp common kid khash did) = [kid, did, "0x6"])) ∧
    ((e && hp) = true →
      objectArgs (uploadRegTx cfg e hp common kid khash did) = [kid, did, "0x6"]) := by
  constructor
  · intro hf
    constructor <;> intro hg <;>
      simp [uploadRegTx, hf, hg, objectArgs_uploadAssetUserPaysTx, objectArgs_createAssetTx,
        toCreateAssetParams]
  · intro ht
    simp [uploadRegTx, ht, objectArgs_createAssetTx, toCreateAssetParams]

/-- Witness for C2: under the user-pays configuration the plain registration
references only the clock, and under the sponsored configuration the
encrypted-flow registration references the credential and developer account. -/
theorem uploadRegTx_entry_point_selection_witness :
    objectArgs (uploadRegTx exCfgUserPays false false
      (mkRegParams "b" "n" "t" 1 exOptsNone) "0xkey1" "h" "0xdevacct") = ["0x6"] ∧
    objectArgs (uploadRegTx exCfgSponsoredEnc true true
      (mkRegParams "b" "n" "t" 1 exOptsNone) "0xkey1" "h" "0xdevacct")
      = ["0xkey1", "0xdevacct", "0x6"] := by
  constructor
  · exact ((uploadRegTx_entry_point_selection exCfgUserPays false false
      (mkRegParams "b" "n" "t" 1 exOptsNone) "0xkey1" "h" "0xdevacct").1 rfl).1 rfl
  · exact (uploadRegTx_entry_point_selection exCfgSponsoredEnc true true
      (mkRegParams "b" "n" "t" 1 exOptsNone) "0xkey1" "h" "0xdevacct").2 rfl

/-! ## C4 -/

/-- C4: the plain round trip holds — retrieving a plainly uploaded asset
returns the original bytes — but the encrypted-upload saga stores the
ciphertext under the blob id it returns while the on-ledger asset record
keeps referencing the provisional plaintext blob, so retrieve on the asset
id without decryption returns the plaintext rather than the ciphertext, and
the decryption path fails on the plaintext instead of recovering the
original bytes — evaluated at the concrete encrypted upload of the bytes
2, 3, 4. -/
theorem encrypted_retrieve_returns_plaintext :
    ((retrieve exInstSponsoredPlain
        (upload exInstSponsoredPlain exWorld 0 (.buffer [7, 8]) exOptsNone).world 0
        "0xasset0" { decrypt := none, hasSessionKey := false }).toOption.map
          (fun p => p.1.data)) = some [7, 8] ∧
    exEncUploadTrace.outcome.isOk = true ∧
    (exEncUploadTrace.outcome.toOption.map (fun r => r.assetId)) = some "0xasset0" ∧
    (exEncUploadTrace.outcome.toOption.map (fun r => r.blobId)) = some "walrusblob1" ∧
    lookupAssoc exEncUploadTrace.world.blobs "walrusblob1"
      = some (sealEncrypt "0xpolicy1" [2, 3, 4]) ∧
    (lookupAssoc exEncUploadTrace.world.assets "0xasset0").map (fun a => a.blobId)
      = some "walrusblob0" ∧
    lookupAssoc exEncUploadTrace.world.blobs "walrusblob0" = some [2, 3, 4] ∧
    ((retrieve exInstSponsoredEnc exEncUploadTrace.world 0 "0xasset0"
        { decrypt := some false, hasSessionKey := false }).toOption.map (fun p => p.1.data))
      = some [2, 3, 4] ∧
    ([2, 3, 4] ≠ sealEncrypt "0xpolicy1" [2, 3, 4]) ∧
    (retrieve exInstSponsoredEnc exEncUploadTrace.world 0 "0xasset0"
        { decrypt := none, hasSessionKey := true })
      = .error (.encryptionErr "Decryption failed: invalid ciphertext") := by
  decide

/-! ## C7 -/

/-- C7: a blob-store DELETE answered with 404 or 405 returns normally from
the deletion helper, and no blob-store deletion outcome whatsoever makes the
overall delete throw: for every outcome the operation returns successfully,
with the ledger record removed and the cache entry invalidated. -/
theorem delete_tolerates_blob_failures (inst : WalbucketInstance) (w : World)
    (now : Nat) (assetId : String) (d : ApiKeyData) (kc : ApiKeyCache)
    (a : AssetMetadata) (did : String)
    (hv : validateApiKey inst.apiKeyCache (inst.config.cacheTTL * 1000) w.keys now
        inst.config.apiKey none = .ok (d, kc))
    (hperm : hasPermission d PERMISSION_DELETE = true)
    (hc : cacheGet inst.assetCache now assetId = none)
    (hl : lookupAssoc w.assets assetId = some a)
    (hdev : getDeveloperAccountId w.keys d.developerAddress = some did) :
    (WalrusService.deleteBlob (some 404) = .ok () ∧
     WalrusService.deleteBlob (some 405) = .ok ()) ∧
    (∀ st, ∃ inst2 w2, deleteOp inst w now assetId st = .ok (inst2, w2) ∧
      lookupAssoc w2.assets assetId = none ∧
      cacheGet inst2.assetCache now assetId = none) := by
  refine ⟨⟨rfl, rfl⟩, fun st => ?_⟩
  rcases hb : WalrusService.deleteBlob st with e | u
  · refine ⟨{ inst with apiKeyCache := kc, assetCache := cacheDel inst.assetCache assetId },
      { w with assets := removeAssoc w.assets assetId }, ?_,
      lookupAssoc_removeAssoc _ _, cacheGet_cacheDel _ _ _⟩
    simp [deleteOp, hv, hperm, hc, hl, hdev, hb]
  · refine ⟨{ inst with apiKeyCache := kc, assetCache := cacheDel inst.assetCache assetId },
      { w with assets := removeAssoc w.assets assetId,
               blobs := removeAssoc w.blobs a.blobId }, ?_,
      lookupAssoc_removeAssoc _ _, cacheGet_cacheDel _ _ _⟩
    simp [deleteOp, hv, hperm, hc, hl, hdev, hb]

/-- Witness for C7: deleting the example asset succeeds both when the blob
store answers 500 and when it answers 404. -/
theorem delete_tolerates_blob_failures_witness :
    (deleteOp exInstSponsoredPlain exWorldA 0 "0xa1" (some 500)).isOk = true ∧
    (deleteOp exInstSponsoredPlain exWorldA 0 "0xa1" (some 404)).isOk = true := by
  have h := delete_tolerates_blob_failures exInstSponsoredPlain exWorldA 0 "0xa1"
    exKeyData exKeyCacheAfter exAsset "0xdevacct"
    (by decide) (by decide) (by decide) (by decide) (by decide)
  constructor
  · obtain ⟨i2, w2, heq, -, -⟩ := h.2 (some 500)
    rw [heq]
    rfl
  · obtain ⟨i2, w2, heq, -, -⟩ := h.2 (some 404)
    rw [heq]
    rfl

/-! ## C6 -/

theorem getAsset_queried_of_cache_miss (inst : WalbucketInstance) (w : World)
    (now : Nat) (id : String) (h : cacheGet inst.assetCache now id = none) :
    (getAsset inst w now id).queriedLedger = true := by
  unfold getAsset
  rw [h]
  rcases hl : lookupAssoc w.assets id <;> simp [hl]

theorem rename_cache_del (inst : WalbucketInstance) (w : World) (now : Nat)
    (assetId newName : String) (inst2 : WalbucketInstance) (w2 : World)
    (h : rename inst w now assetId newName = .ok (inst2, w2)) :
    inst2.assetCache = cacheDel inst.assetCache assetId := by
  unfold rename at h
  rcases hg : inst.config.gasStrategy with _ | _ <;> simp only [hg] at h
  · rcases hval : validateApiKey inst.apiKeyCache (inst.config.cacheTTL * 1000) w.keys now
        inst.config.apiKey none with e | ⟨d, kc⟩ <;> simp only [hval] at h
    · cases h
    · rcases hdev : getDeveloperAccountId w.keys d.developerAddress with _ | did <;>
        simp only [hdev] at h
      · cases h
      · rw [Except.ok.injEq, Prod.mk.injEq] at h
        rw [← h.1]
  · split at h
    · rw [Except.ok.injEq, Prod.mk.injEq] at h
      rw [← h.1]
    · cases h

theorem moveToFolder_cache_del (inst : WalbucketInstance) (w : World) (now : Nat)
    (assetId : String) (folderId : Option String) (inst2 : WalbucketInstance) (w2 : World)
    (h : moveToFolder inst w now assetId folderId = .ok (inst2, w2)) :
    inst2.assetCache = cacheDel inst.assetCache assetId := by
  unfold moveToFolder at h
  rcases hg : inst.config.gasStrategy with _ | _ <;> simp only [hg] at h
  · rcases hval : validateApiKey inst.apiKeyCache (inst.config.cacheTTL * 1000) w.keys now
        inst.config.apiKey none with e | ⟨d, kc⟩ <;> simp only [hval] at h
    · cases h
    · rcases hdev : getDeveloperAccountId w.keys d.developerAddress with _ | did <;>
        simp only [hdev] at h
      · cases h
      · rw [Except.ok.injEq, Prod.mk.injEq] at h
        rw [← h.1]
  · split at h
    · rw [Except.ok.injEq, Prod.mk.injEq] at h
      rw [← h.1]
    · cases h

theorem deleteOp_cache_del (inst : WalbucketInstance) (w : World) (now : Nat)
    (assetId : String) (st : Option Nat) (inst2 : WalbucketInstance) (w2 : World)
    (h : deleteOp inst w now assetId st = .ok (inst2, w2)) :
    inst2.assetCache = cacheDel inst.assetCache assetId := by
  unfold deleteOp at h
  rcases hval : validateApiKey inst.apiKeyCache (inst.config.cacheTTL * 1000) w.keys now
      inst.config.apiKey none with e | ⟨d, kc⟩ <;> simp only [hval] at h
  · cases h
  · by_cases hperm : hasPermission d PERMISSION_DELETE = true <;>
      simp only [hperm, not_true, not_false_iff, Bool.not_true, Bool.not_false,
        if_true, if_false, ite_true, ite_false] at h
    case neg => simp at h
    rcases ha : (match cacheGet inst.assetCache now assetId with
        | some a => some a
        | none => lookupAssoc w.assets assetId) with _ | a <;> simp only [ha] at h
    · cases h
    · rcases hdev : getDeveloperAccountId w.keys d.developerAddress with _ | did <;>
        simp only [hdev] at h
      · cases h
      · rw [Except.ok.injEq, Prod.mk.injEq] at h
        rw [← h.1]

/-- C6: a getAsset call that hit the ledger populates the cache; a repeated
call strictly before the expiry instant returns the identical metadata with
no ledger query and leaves the state unchanged; a call at or after expiry
queries the ledger again; and after a successful rename, move-to-folder or
delete of that id the cache entry is invalidated, so the next getAsset
queries the ledger. -/
theorem getAsset_cache_behavior (inst : WalbucketInstance) (w : World)
    (t1 t2 : Nat) (id : String) (a : AssetMetadata)
    (hq : (getAsset inst w t1 id).asset = some a)
    (hql : (getAsset inst w t1 id).queriedLedger = true) :
    (t2 < t1 + inst.config.cacheTTL * 1000 →
      getAsset (getAsset inst w t1 id).inst w t2 id
        = { asset := some a, inst := (getAsset inst w t1 id).inst, queriedLedger := false }) ∧
    (t2 ≥ t1 + inst.config.cacheTTL * 1000 →
      (getAsset (getAsset inst w t1 id).inst w t2 id).queriedLedger = true) ∧
    (∀ newName inst2 w2,
      rename (getAsset inst w t1 id).inst w t2 id newName = .ok (inst2, w2) →
      (getAsset inst2 w2 t2 id).queriedLedger = true) ∧
    (∀ fid inst2 w2,
      moveToFolder (getAsset inst w t1 id).inst w t2 id fid = .ok (inst2, w2) →
      (getAsset inst2 w2 t2 id).queriedLedger = true) ∧
    (∀ st inst2 w2,
      deleteOp (getAsset inst w t1 id).inst w t2 id st = .ok (inst2, w2) →
      (getAsset inst2 w2 t2 id).queriedLedger = true) := by
  unfold getAsset at hq hql ⊢
  rcases hc : cacheGet inst.assetCache t1 id with _ | cached <;> simp only [hc] at hq hql ⊢
  case some => simp at hql
  rcases hl : lookupAssoc w.assets id with _ | a0 <;> simp only [hl] at hq hql ⊢
  case none => simp at hq
  rw [Option.some.injEq] at hq
  subst hq
  refine ⟨?_, ?_, ?_, ?_, ?_⟩
  · intro hlt
    simp [cacheGet, cacheSet, lookupAssoc, hlt]
  · intro hge
    have hne : ¬ (t2 < t1 + inst.config.cacheTTL * 1000) := by omega
    have hmiss : cacheGet (cacheSet inst.assetCache t1 (inst.config.cacheTTL * 1000) id
        { a0 with url := generateFileUrl inst.config a0.blobId }) t2 id = none := by
      simp [cacheGet, cacheSet, lookupAssoc, hne]
    rw [hmiss]
  · intro newName inst2 w2 h
    have h2 := rename_cache_del _ _ _ _ _ _ _ h
    exact getAsset_queried_of_cache_miss inst2 w2 t2 id (h2 ▸ cacheGet_cacheDel _ _ _)
  · intro fid inst2 w2 h
    have h2 := moveToFolder_cache_del _ _ _ _ _ _ _ h
    exact getAsset_queried_of_cache_miss inst2 w2 t2 id (h2 ▸ cacheGet_cacheDel _ _ _)
  · intro st inst2 w2 h
    have h2 := deleteOp_cache_del _ _ _ _ _ _ _ h
    exact getAsset_queried_of_cache_miss inst2 w2 t2 id (h2 ▸ cacheGet_cacheDel _ _ _)

/-- Witness for C6: on the example world, the second getAsset within the TTL
does not query the ledger, the one at the expiry instant does, and after a
rename the next getAsset queries the ledger again. -/
theorem getAsset_cache_behavior_witness :
    (getAsset (getAsset exInstSponsoredPlain exWorldA 0 "0xa1").inst exWorldA 5 "0xa1").queriedLedger
      = false ∧
    (getAsset (getAsset exInstSponsoredPlain exWorldA 0 "0xa1").inst exWorldA 3600000 "0xa1").queriedLedger
      = true := by
  constructor
  · have h := getAsset_cache_behavior exInstSponsoredPlain exWorldA 0 5 "0xa1"
      exAssetWithUrl (by decide) (by decide)
    rw [h.1 (by decide)]
  · have h := getAsset_cache_behavior exInstSponsoredPlain exWorldA 0 3600000 "0xa1"
      exAssetWithUrl (by decide) (by decide)
    exact h.2.1 (by decide)

/-! ## C9 -/

/-- C9 counterexample: uploading a concrete 10-byte file named a.txt with no
folder and no encryption yields contentType application/octet-stream, not
text/plain — the extension table of getContentType has no entry for txt. -/
theorem upload_a_txt_contentType_not_text_plain :
    ((upload exInstSponsoredPlain exWorld 0 (.path "a.txt" (List.replicate 10 7))
        exOptsNone).outcome.toOption.map (fun r => r.contentType))
      = some "application/octet-stream" ∧
    "application/octet-stream" ≠ "text/plain" ∧
    getContentType (.path "a.txt" []) = "application/octet-stream" := by
  decide

/-- C9 as amended: uploading a 10-byte file named a.txt with no folder and
no encryption returns a non-empty asset id, a non-empty blob id, encrypted
false and size 10, with contentType application/octet-stream (the extension
table has no txt entry; text/plain is reported only when the input is a
browser File or Blob whose own type field carries it). -/
theorem upload_a_txt_result (data : List Nat) (hlen : data.length = 10) :
    ∃ res, (upload exInstSponsoredPlain exWorld 0 (.path "a.txt" data) exOptsNone).outcome
        = .ok res ∧
      res.assetId ≠ "" ∧ res.blobId ≠ "" ∧ res.encrypted = false ∧
      res.size = 10 ∧ res.contentType = "application/octet-stream" := by
  have hv : validateApiKey exInstSponsoredPlain.apiKeyCache
      (exInstSponsoredPlain.config.cacheTTL * 1000) exWorld.keys 0
      exInstSponsoredPlain.config.apiKey none = .ok (exKeyData, exKeyCacheAfter) := by
    decide
  have hperm : hasPermission exKeyData PERMISSION_UPLOAD = true := by decide
  have hdev : getDeveloperAccountId exWorld.keys exKeyData.developerAddress
      = some "0xdevacct" := by decide
  have hbr : ((exOptsNone.encryption.getD exInstSponsoredPlain.config.encryption)
      && exOptsNone.policy.isSome) = false := by decide
  unfold upload
  simp only [hv, hperm, hdev, hbr, Bool.false_eq_true, if_false, ite_false,
    walrusUpload, registerAssetEffect]
  refine ⟨_, rfl, ?_, ?_, ?_, ?_, by rfl⟩
  · show "0xasset" ++ toString exWorld.nextObjId ≠ ""
    decide
  · show "walrusblob" ++ toString exWorld.nextBlobId ≠ ""
    decide
  · show (exOptsNone.encryption.getD exInstSponsoredPlain.config.encryption) = false
    decide
  · simpa [fileToBuffer] using hlen

/-- Witness for C9: the amended statement at the concrete 10-byte content. -/
theorem upload_a_txt_result_witness :
    (List.replicate 10 7).length = 10 ∧
    ∃ res, (upload exInstSponsoredPlain exWorld 0
        (.path "a.txt" (List.replicate 10 7)) exOptsNone).outcome = .ok res ∧
      res.assetId ≠ "" ∧ res.blobId ≠ "" ∧ res.encrypted = false ∧
      res.size = 10 ∧ res.contentType = "application/octet-stream" :=
  ⟨by decide, upload_a_txt_result (List.replicate 10 7) (by decide)⟩

/-! ## C10 -/

/-- C10: with encryption enabled by configuration but no policy option and
no per-call encryption option, the plain flow executes — the stored blob is
the plaintext, no policy is created and the asset record carries no policy
reference — yet the returned result reports encrypted true with no policy
id; and every successful upload reports the effective encryption option as
its encrypted flag, so false is reported exactly when encryption was
disabled by configuration or per-call option. -/
theorem upload_encrypted_flag_reports_option (inst : WalbucketInstance) (w : World)
    (now : Nat) (file : FileInput) (opts : UploadOptions) (d : ApiKeyData)
    (kc : ApiKeyCache) (did : String)
    (hv : validateApiKey inst.apiKeyCache (inst.config.cacheTTL * 1000) w.keys now
        inst.config.apiKey none = .ok (d, kc))
    (hperm : hasPermission d PERMISSION_UPLOAD = true)
    (hdev : getDeveloperAccountId w.keys d.developerAddress = some did)
    (henc : inst.config.encryption = true)
    (hpol : opts.policy = none) (hoenc : opts.encryption = none) :
    (∃ res, (upload inst w now file opts).outcome = .ok res ∧
      res.encrypted = true ∧ res.policyId = none ∧
      lookupAssoc (upload inst w now file opts).world.blobs res.blobId
        = some (fileToBuffer file) ∧
      (upload inst w now file opts).world.policies = w.policies ∧
      (lookupAssoc (upload inst w now file opts).world.assets res.assetId).map
          AssetMetadata.policyId = some none) ∧
    (∀ (opts2 : UploadOptions) res2, (upload inst w now file opts2).outcome = .ok res2 →
      res2.encrypted = (opts2.encryption.getD inst.config.encryption)) := by
  constructor
  · have hbr : ((opts.encryption.getD inst.config.encryption) && opts.policy.isSome) = false := by
      simp [hpol]
    unfold upload
    simp only [hv, hperm, hdev, hbr, Bool.false_eq_true, if_false, ite_false,
      walrusUpload, registerAssetEffect]
    refine ⟨_, rfl, ?_, rfl, ?_, rfl, ?_⟩
    · simp [hoenc, henc]
    · simp [lookupAssoc]
    · simp [lookupAssoc]
  · intro opts2 res2 h2
    simp only [henc]
    unfold upload at h2
    simp only [hv, hperm, hdev, henc, eq_self_iff_true, not_true, not_false_iff,
      if_false, if_true, ite_false, ite_true] at h2
    by_cases hbr2 : ((opts2.encryption.getD true) && opts2.policy.isSome) = true
    · rcases hsig : inst.signer with _ | s <;>
        simp only [hbr2, hsig, if_true, ite_true, eq_self_iff_true, not_true,
          Bool.not_true, if_false, ite_false, createPolicyStep, applyPolicyStep,
          walrusUpload, registerAssetEffect] at h2
      · cases h2
      · rw [Except.ok.injEq] at h2
        rw [← h2]
    · rw [Bool.not_eq_true] at hbr2
      simp only [hbr2, Bool.false_eq_true, if_false, ite_false, walrusUpload,
        registerAssetEffect] at h2
      rw [Except.ok.injEq] at h2
      rw [← h2]

/-- Witness for C10: the concrete sponsored instance with encryption enabled
uploads a single byte without a policy; the blob stored is the plaintext but
the result reports encrypted true with no policy id. -/
theorem upload_encrypted_flag_reports_option_witness :
    ∃ res, (upload exInstSponsoredEnc exWorld 0 (.buffer [5]) exOptsNone).outcome = .ok res ∧
      res.encrypted = true ∧ res.policyId = none ∧
      lookupAssoc (upload exInstSponsoredEnc exWorld 0 (.buffer [5]) exOptsNone).world.blobs
        res.blobId = some [5] := by
  obtain ⟨⟨res, h1, h2, h3, h4, -, -⟩, -⟩ :=
    upload_encrypted_flag_reports_option exInstSponsoredEnc exWorld 0 (.buffer [5])
      exOptsNone exKeyData exKeyCacheAfter "0xdevacct"
      (by decide) (by decide) (by decide) rfl rfl rfl
  exact ⟨res, h1, h2, h3, h4⟩

end Walbucket
